import Mathlib

/-!
Verification development for the py-log-analyzer repository
(`log_explorer`): a shallow embedding, in Lean 4, of the data model and of
the operations of the format-inference engine, the timestamp recognizer and
the schema-driven parsing engine, together with theorems settling the
specification claims about them.

Conventions of the embedding:
  * Python `float` confidence arithmetic is embedded as `PyRat`, exact
    rational numbers in gcd-normalized form (numerator, positive
    denominator).  Normalization keeps every computed value canonical, so
    structural equality coincides with value equality and every operation
    is kernel-computable.
  * Python `datetime` instants are embedded as `Int` epoch seconds
    (naive and UTC instants live on one timeline; `datetime.now()` is an
    explicit `now : Int` parameter threaded through every time-dependent
    operation).
  * Python `dict` is an association list with insertion-order semantics
    (`dictLookup` / `dictInsert` / `dictUpdate`).
  * Code that can raise returns `Except String`; a `try/except` block of
    the source is an explicit `match` on that value.
  * Python string operations (`strip`, `split`, `startswith`, `lower`, …)
    are embedded as character-list functions.
-/

/-! ## Exact rational arithmetic for Python float scores -/

/-- An exact rational in normalized form: gcd-reduced numerator over a
positive denominator.  Embeds the Python `float` values that the source
uses as confidence scores (whose arithmetic on the small decimal constants
involved is exact in the claims' sense). -/
structure PyRat where
  num : Int
  den : Int
  den_pos : 0 < den

instance : DecidableEq PyRat := fun a b =>
  if h1 : a.num = b.num then
    if h2 : a.den = b.den then
      isTrue (by cases a; cases b; simp_all)
    else isFalse (by intro h; cases h; exact h2 rfl)
  else isFalse (by intro h; cases h; exact h1 rfl)

/-- Normalize `n / d` for a positive denominator. -/
def qnormPos (n d : Int) (hd : 0 < d) : PyRat :=
  let g : Nat := n.natAbs.gcd d.natAbs
  if hg : 0 < (g : Int) then
    ⟨n / g, d / g, by
      have hdvd : (g : Int) ∣ d := by
        have h1 : g ∣ d.natAbs := Nat.gcd_dvd_right _ _
        exact Int.dvd_natAbs.mp (Int.natCast_dvd_natCast.mpr h1)
      rcases hdvd with ⟨k, hk⟩
      have hgk : 0 < (g : Int) * k := hk ▸ hd
      have hkpos : 0 < k := by nlinarith
      have : d / (g : Int) = k := by
        rw [hk, Int.mul_ediv_cancel_left _ (by omega)]
      omega⟩
  else ⟨0, 1, by omega⟩

/-- Normalize `n / d` for an arbitrary denominator (the sentinel `0` is
returned for `d = 0`; every division in the embedded source is guarded so
the sentinel is never produced by it). -/
def qnorm (n d : Int) : PyRat :=
  if h : 0 < d then qnormPos n d h
  else if h2 : 0 < -d then qnormPos (-n) (-d) h2
  else ⟨0, 1, by omega⟩

def PyRat.add (a b : PyRat) : PyRat :=
  qnorm (a.num * b.den + b.num * a.den) (a.den * b.den)

def PyRat.sub (a b : PyRat) : PyRat :=
  qnorm (a.num * b.den - b.num * a.den) (a.den * b.den)

def PyRat.mul (a b : PyRat) : PyRat := qnorm (a.num * b.num) (a.den * b.den)

def PyRat.div (a b : PyRat) : PyRat := qnorm (a.num * b.den) (a.den * b.num)

def PyRat.neg (a : PyRat) : PyRat := ⟨-a.num, a.den, a.den_pos⟩

/-- Value order `a ≤ b` by cross-multiplication (denominators positive). -/
def PyRat.le (a b : PyRat) : Prop := a.num * b.den ≤ b.num * a.den

/-- Strict value order `a < b`. -/
def PyRat.lt (a b : PyRat) : Prop := a.num * b.den < b.num * a.den

/-- Value equality (coincides with structural equality on normalized
values, but is the faithful reading of Python `==`). -/
def PyRat.veq (a b : PyRat) : Prop := a.num * b.den = b.num * a.den

instance : Add PyRat := ⟨PyRat.add⟩
instance : Sub PyRat := ⟨PyRat.sub⟩
instance : Mul PyRat := ⟨PyRat.mul⟩
instance : Div PyRat := ⟨PyRat.div⟩
instance : Neg PyRat := ⟨PyRat.neg⟩
instance : LE PyRat := ⟨PyRat.le⟩
instance : LT PyRat := ⟨PyRat.lt⟩

instance (n : Nat) : OfNat PyRat n := ⟨⟨n, 1, by omega⟩⟩
instance : NatCast PyRat := ⟨fun n => ⟨n, 1, by omega⟩⟩
instance : IntCast PyRat := ⟨fun n => ⟨n, 1, by omega⟩⟩

instance (a b : PyRat) : Decidable (a ≤ b) :=
  inferInstanceAs (Decidable (a.num * b.den ≤ b.num * a.den))
instance (a b : PyRat) : Decidable (a < b) :=
  inferInstanceAs (Decidable (a.num * b.den < b.num * a.den))
instance (a b : PyRat) : Decidable (PyRat.veq a b) :=
  inferInstanceAs (Decidable (a.num * b.den = b.num * a.den))

/-- Python `min(a, b)` on floats. -/
def qmin (a b : PyRat) : PyRat := if a ≤ b then a else b

/-- Python `max(a, b)` on floats. -/
def qmax (a b : PyRat) : PyRat := if a ≤ b then b else a

/-- Python `abs` on integers. -/
def intAbs (n : Int) : Int := if n < 0 then -n else n

/-! ## Python-style base utilities -/

/-- Python dict lookup (`d[k]` / `k in d`): first binding of the key. -/
def dictLookup {κ α : Type} [DecidableEq κ] (d : List (κ × α)) (k : κ) :
    Option α :=
  match d with
  | [] => none
  | (k1, v) :: rest => if k1 = k then some v else dictLookup rest k

/-- Python dict assignment `d[k] = v`: replace in place if the key exists,
append otherwise (insertion order preserved). -/
def dictInsert {κ α : Type} [DecidableEq κ] (d : List (κ × α)) (k : κ) (v : α) :
    List (κ × α) :=
  match d with
  | [] => [(k, v)]
  | (k1, v1) :: rest =>
    if k1 = k then (k1, v) :: rest else (k1, v1) :: dictInsert rest k v

/-- Python `d.update(new)`: assign every binding of `new` into `d` in order. -/
def dictUpdate {κ α : Type} [DecidableEq κ] (d new : List (κ × α)) :
    List (κ × α) :=
  new.foldl (fun acc kv => dictInsert acc kv.1 kv.2) d

/-- Python `max(x :: xs, key)`: the first element attaining the maximal key
(a later element replaces the current best only when strictly greater). -/
def pyMaxBy {α : Type} (key : α → PyRat) (x : α) (xs : List α) : α :=
  xs.foldl (fun best y => if key best < key y then y else best) x

/-- `pyMaxBy` for natural-number keys. -/
def pyMaxByNat {α : Type} (key : α → Nat) (x : α) (xs : List α) : α :=
  xs.foldl (fun best y => if key best < key y then y else best) x

/-- ASCII whitespace recognized by Python `str.strip()` / `str.isspace()`. -/
def isSpaceChar (c : Char) : Bool :=
  c == ' ' || c == '\t' || c == '\n' || c == '\r' ||
    c == '\x0b' || c == '\x0c'

/-- Python `s.strip()` on a character list. -/
def trimChars (cs : List Char) : List Char :=
  ((cs.dropWhile isSpaceChar).reverse.dropWhile isSpaceChar).reverse

/-- Python `s.strip()`. -/
def pyStrip (s : String) : String := ⟨trimChars s.data⟩

/-- Python `not line.strip()`: the line is blank or whitespace-only. -/
def isBlankLine (s : String) : Bool := trimChars s.data == []

/-- Python `s.split(sep)` for a one-character separator. -/
def splitOnChar (c : Char) : List Char → List (List Char)
  | [] => [[]]
  | x :: xs =>
    let r := splitOnChar c xs
    if x == c then [] :: r
    else
      match r with
      | [] => [[x]]
      | h :: t => (x :: h) :: t

/-- Python `sep.join(parts)` for a one-character separator. -/
def joinWithChar (c : Char) : List (List Char) → List Char
  | [] => []
  | [x] => x
  | x :: xs => x ++ c :: joinWithChar c xs

/-- All-digit run parsed as a natural number, `none` when empty or
non-digit. -/
def digitsToNat (cs : List Char) : Option Nat :=
  if cs ≠ [] ∧ cs.all Char.isDigit then
    some (cs.foldl (fun a c => a * 10 + (c.toNat - 48)) 0)
  else none

/-- Python `int(s)` on a string: surrounding whitespace stripped, optional
sign, decimal digits. -/
def pyParseInt (s : String) : Option Int :=
  match trimChars s.data with
  | '+' :: rest => (digitsToNat rest).map Int.ofNat
  | '-' :: rest => (digitsToNat rest).map (fun n => -(n : Int))
  | rest => (digitsToNat rest).map Int.ofNat

/-- Unsigned decimal body of a Python float literal: `digits[.digits]`. -/
def pyFloatBody (cs : List Char) : Option PyRat :=
  match splitOnChar '.' cs with
  | [whole] => (digitsToNat whole).map (fun n => ((n : Nat) : PyRat))
  | [whole, frac] =>
    match digitsToNat whole, digitsToNat frac with
    | some w, some f =>
      some (qnorm ((w : Int) * (10 : Int) ^ frac.length + (f : Int))
        ((10 : Int) ^ frac.length))
    | _, _ => none
  | _ => none

/-- Python `float(s)` on a string, embedded for the plain forms
`[sign]digits[.digits]` (exponent, infinity and NaN spellings are outside
the inputs this development evaluates). -/
def pyParseFloat (s : String) : Option PyRat :=
  match trimChars s.data with
  | '+' :: rest => pyFloatBody rest
  | '-' :: rest => (pyFloatBody rest).map PyRat.neg
  | rest => pyFloatBody rest

/-- Does `hay` start with `needle`? (Python `hay.startswith(needle)`.) -/
def startsWithChars : List Char → List Char → Bool
  | [], _ => true
  | _ :: _, [] => false
  | n :: ns, h :: hs => n == h && startsWithChars ns hs

/-- Python `needle in hay` on character lists (substring containment). -/
def listHasInfix (needle : List Char) : List Char → Bool
  | [] => startsWithChars needle []
  | c :: cs => startsWithChars needle (c :: cs) || listHasInfix needle cs

/-- Python `sub in s` for strings. -/
def strContains (s sub : String) : Bool := listHasInfix sub.data s.data

/-- Python `s.lower()` (ASCII case folding, which covers every string this
development evaluates). -/
def lowerChars (cs : List Char) : List Char :=
  cs.map (fun c =>
    if c.toNat ≥ 65 ∧ c.toNat ≤ 90 then Char.ofNat (c.toNat + 32) else c)

/-- Python `s.lower()` on strings. -/
def pyLower (s : String) : String := ⟨lowerChars s.data⟩

/-! ## Calendar / epoch arithmetic for the embedded `datetime` -/

/-- Gregorian leap-year rule. -/
def isLeapYear (y : Int) : Bool := (y % 4 == 0 && y % 100 != 0) || y % 400 == 0

/-- Days of month `m` (1-based) in year `y`. -/
def daysInMonth (y : Int) (m : Nat) : Nat :=
  if m = 2 then (if isLeapYear y then 29 else 28)
  else if m = 4 ∨ m = 6 ∨ m = 9 ∨ m = 11 then 30
  else 31

/-- Days from 1970-01-01 to the civil date `y-m-d` (Hinnant's algorithm). -/
def daysFromCivil (y : Int) (m d : Nat) : Int :=
  let yy : Int := if m ≤ 2 then y - 1 else y
  let era : Int := (if 0 ≤ yy then yy else yy - 399) / 400
  let yoe : Int := yy - era * 400
  let mp : Int := ((m : Int) + 9) % 12
  let doy : Int := (153 * mp + 2) / 5 + (d : Int) - 1
  let doe : Int := yoe * 365 + yoe / 4 - yoe / 100 + doy
  era * 146097 + doe - 719468

/-- Epoch seconds of the civil instant `y-mo-d h:mi:s` (naive timeline). -/
def epochOfCivil (y : Int) (mo d h mi s : Nat) : Int :=
  daysFromCivil y mo d * 86400 + (h : Int) * 3600 + (mi : Int) * 60 + (s : Int)

/-- Range validation shared with `datetime.strptime`: month, day, hour,
minute and second bounds of a constructible `datetime`. -/
def validCivil (y : Int) (mo d h mi s : Nat) : Bool :=
  decide (1 ≤ y) && decide (1 ≤ mo) && decide (mo ≤ 12) &&
  decide (1 ≤ d) && decide (d ≤ daysInMonth y mo) &&
  decide (h ≤ 23) && decide (mi ≤ 59) && decide (s ≤ 59)

/-! ## Timestamp recognizer (`inference/timestamp_detector.py`)

The repository's `timestamp_detector.py` imports its pattern table from
`timestamp_patterns.TIMESTAMP_PATTERNS`, a module that is not present under
`src/`; only its consumers are.  The catalog itself is therefore modelled
from the spec (§4.1: a catalog of ~20 timestamp patterns, each carrying a
regular expression, a strptime-style format id, a base confidence, a
specificity tier and timezone/microsecond capability flags); the scanning,
overlap-suppression, parsing, confidence and ordering logic below is
embedded from `timestamp_detector.py` itself. -/

/-- Per-pattern metadata of a catalog entry (the `pattern_info` dict of the
source: `name`, `format`, `base_confidence`, `specificity`, `has_timezone`,
`has_microseconds`). -/
structure TsPatternInfo where
  name : String
  format : String
  base_confidence : PyRat
  specificity : String
  has_timezone : Bool
  has_microseconds : Bool

/-- A catalog entry: metadata, the character shape recognized by its
regular expression, and its format-specific parse rule returning the parsed
instant together with the (possibly adjusted) base confidence — the
contract of `_parse_timestamp`'s per-format branches. -/
structure TsCatalogEntry where
  info : TsPatternInfo
  shape : List (Char → Bool)
  parse : List Char → Option (Int × PyRat)

/-- Does the text start with the given character shape? -/
def matchesShape : List (Char → Bool) → List Char → Bool
  | [], _ => true
  | _ :: _, [] => false
  | p :: ps, c :: cs => p c && matchesShape ps cs

/-- Scanning loop of `findIter`, structurally recursive on a fuel argument;
every step consumes at least one character, so fuel equal to the text
length never runs out. -/
def findIterGo (shape : List (Char → Bool)) :
    Nat → List Char → Nat → List (Nat × Nat)
  | 0, _, _ => []
  | _ + 1, [], _ => []
  | fuel + 1, c :: cs, pos =>
    if matchesShape shape (c :: cs) then
      (pos, pos + shape.length) ::
        findIterGo shape fuel (cs.drop (shape.length - 1)) (pos + shape.length)
    else
      findIterGo shape fuel cs (pos + 1)

/-- `re.finditer` for a fixed-width character-class pattern: leftmost,
non-overlapping spans `(start, stop)` in scan order. -/
def findIter (shape : List (Char → Bool)) (text : List Char) (pos : Nat) :
    List (Nat × Nat) :=
  findIterGo shape text.length text pos

/-- Character shape of the modelled catalog pattern
`\d{4}-\d{2}-\d{2} \d{2}:\d{2}:\d{2}` (naive ISO-8601 date-time). -/
def isoShape : List (Char → Bool) :=
  [Char.isDigit, Char.isDigit, Char.isDigit, Char.isDigit, fun c => c == '-',
   Char.isDigit, Char.isDigit, fun c => c == '-', Char.isDigit, Char.isDigit,
   fun c => c == ' ', Char.isDigit, Char.isDigit, fun c => c == ':',
   Char.isDigit, Char.isDigit, fun c => c == ':', Char.isDigit, Char.isDigit]

/-- `datetime.strptime(s, "%Y-%m-%d %H:%M:%S")` on a 19-character match:
digits to numbers, full range validation, conversion to epoch seconds. -/
def parseIsoChars : List Char → Option Int
  | [y1, y2, y3, y4, _, m1, m2, _, d1, d2, _, h1, h2, _, i1, i2, _, s1, s2] =>
    match digitsToNat [y1, y2, y3, y4], digitsToNat [m1, m2],
        digitsToNat [d1, d2], digitsToNat [h1, h2], digitsToNat [i1, i2],
        digitsToNat [s1, s2] with
    | some y, some mo, some d, some h, some mi, some s =>
      if validCivil (y : Int) mo d h mi s then
        some (epochOfCivil (y : Int) mo d h mi s)
      else none
    | _, _, _, _, _, _ => none
  | _ => none

/-- Whether the text contains a 4-digit run (`re.search(r"\d{4}", s)`). -/
def hasFourDigitRun : List Char → Bool
  | a :: b :: c :: d :: rest =>
    (a.isDigit && b.isDigit && c.isDigit && d.isDigit) ||
      hasFourDigitRun (b :: c :: d :: rest)
  | _ => false

/-- `TimestampDetector._calculate_final_confidence`: contextual adjustment
of the base confidence — specificity bonus, timezone bonus, microsecond
bonus, US-format penalty, temporal-plausibility scaling (note the source
order: `if time_diff > 10y: *= 0.8 elif time_diff > 50y: *= 0.6`), length
bonus/penalty, 4-digit-year bonus, clamp to [0, 1]. -/
def calculate_final_confidence (now : Int) (base : PyRat) (tstr : List Char)
    (info : TsPatternInfo) (dt : Int) : PyRat :=
  let c1 : PyRat := base +
    (if info.specificity = "high" then qnorm 5 100
     else if info.specificity = "medium" then qnorm 2 100 else 0)
  let c2 : PyRat := c1 + (if info.has_timezone then qnorm 3 100 else 0)
  let c3 : PyRat := c2 +
    (if info.has_microseconds ∧ tstr.contains '.' then qnorm 2 100 else 0)
  let c4 : PyRat := c3 -
    (if startsWithChars "us_".data info.name.data then qnorm 5 100 else 0)
  let time_diff : Int := intAbs (dt - now)
  let c5 : PyRat :=
    if time_diff > 86400 * 365 * 10 then c4 * qnorm 8 10
    else if time_diff > 86400 * 365 * 50 then c4 * qnorm 6 10
    else c4
  let c6 : PyRat :=
    if 19 ≤ tstr.length ∧ tstr.length ≤ 35 then c5 + qnorm 2 100
    else if tstr.length < 10 then c5 - qnorm 5 100
    else c5
  let c7 : PyRat := if hasFourDigitRun tstr then c6 + qnorm 1 100 else c6
  qmax 0 (qmin 1 c7)

/-- Modelled from the spec: the timestamp pattern catalog
(`timestamp_patterns.TIMESTAMP_PATTERNS`, absent from `src/`), restricted
to its naive ISO-8601 entry `YYYY-MM-DD HH:MM:SS` (spec §4.1 lists ISO-8601
variants among the catalog's formats; the base confidence and medium
specificity are representative values; none of the other concrete strings
evaluated in this development match any catalog pattern). -/
def TIMESTAMP_PATTERNS_MODEL : List TsCatalogEntry :=
  [{ info := { name := "iso8601_basic", format := "%Y-%m-%d %H:%M:%S",
               base_confidence := qnorm 7 10, specificity := "medium",
               has_timezone := false, has_microseconds := false },
     shape := isoShape,
     parse := fun cs => (parseIsoChars cs).map (fun dt => (dt, qnorm 7 10)) }]

/-- Processing of one catalog pattern inside `detect_timestamp`: every span
of the pattern is skipped when it overlaps an already-claimed position,
parsed otherwise; a successful parse appends a `(datetime, format,
confidence)` result and claims the span's positions. -/
def detectStep (now : Int) (text : List Char) (entry : TsCatalogEntry)
    (acc : List (Int × String × PyRat) × List Nat) :
    List (Int × String × PyRat) × List Nat :=
  (findIter entry.shape text 0).foldl (fun acc2 sp =>
    if acc2.2.any (fun pos => decide (sp.1 ≤ pos) && decide (pos < sp.2)) then
      acc2
    else
      let tstr := (text.drop sp.1).take (sp.2 - sp.1)
      match entry.parse tstr with
      | none => acc2
      | some (dt, base) =>
        (acc2.1 ++ [(dt, entry.info.format,
           calculate_final_confidence now base tstr entry.info dt)],
         acc2.2 ++ List.range' sp.1 (sp.2 - sp.1))) acc

/-- The order realised by `results.sort(key=lambda x: (-x[2], x[0]))`:
ascending lexicographic order on the key `(-confidence, datetime)`
(confidences compared by value, as Python compares floats). -/
def tsLe (a b : Int × String × PyRat) : Prop :=
  b.2.2 < a.2.2 ∨ (PyRat.veq a.2.2 b.2.2 ∧ a.1 ≤ b.1)

instance : DecidableRel tsLe := fun a b => by
  unfold tsLe
  exact inferInstance

/-- `TimestampDetector.detect_timestamp`: scan the text with every catalog
pattern in catalog order, suppress overlapping matches, drop unparseable
ones, then sort by `(-confidence, datetime)`.  Python's `list.sort` is a
stable sort; `List.insertionSort` with the `tsLe` order is stable for that
key, hence extensionally the same sort. -/
def detect_timestamp (now : Int) (text : String) :
    List (Int × String × PyRat) :=
  let gathered :=
    TIMESTAMP_PATTERNS_MODEL.foldl (fun acc e => detectStep now text.data e acc)
      ([], [])
  gathered.1.insertionSort tsLe

/-- `TimestampDetector.get_best_timestamp`: head of the sorted results. -/
def get_best_timestamp (now : Int) (text : String) :
    Option (Int × String × PyRat) :=
  (detect_timestamp now text).head?

/-! ## Shared data model (`inference/log_core.py`, `parser/base_parser.py`) -/

/-- `LogFormat`: the closed enum of recognized dialects. -/
inductive LogFormat
  | json | syslog | apache_common | apache_combined | apache_extended
  | nginx_access | nginx_error | csv | key_value | systemd_journal
  | custom_delimited | basic_log | python_log | ltsv | unknown
  deriving DecidableEq

/-- `LogFormat.value` (the `Enum` member's string value). -/
def LogFormat.value : LogFormat → String
  | .json => "json"
  | .syslog => "syslog"
  | .apache_common => "apache_common"
  | .apache_combined => "apache_combined"
  | .apache_extended => "apache_extended"
  | .nginx_access => "nginx_access"
  | .nginx_error => "nginx_error"
  | .csv => "csv"
  | .key_value => "key_value"
  | .systemd_journal => "systemd_journal"
  | .custom_delimited => "custom_delimited"
  | .basic_log => "basic_log"
  | .python_log => "python_log"
  | .ltsv => "ltsv"
  | .unknown => "unknown"

/-- `FieldInfo`: per-field schema descriptor. -/
structure FieldInfo where
  name : String
  data_type : String
  is_timestamp : Bool := false
  timestamp_format : Option String := none
  sample_values : List String := []
  frequency : Nat := 0
  confidence : PyRat := 0
  deriving DecidableEq

/-- `FieldInfo.add_sample_value` (cap 10, deduplicated). -/
def FieldInfo.add_sample_value (fi : FieldInfo) (value : String)
    (max_samples : Nat := 10) : FieldInfo :=
  if fi.sample_values.length < max_samples ∧ ¬ fi.sample_values.contains value
  then { fi with sample_values := fi.sample_values ++ [value] }
  else fi

/-- `FieldInfo.update_frequency`. -/
def FieldInfo.update_frequency (fi : FieldInfo) : FieldInfo :=
  { fi with frequency := fi.frequency + 1 }

/-- A metadata value (the heterogeneous values stored in the free-form
`metadata` dict of a detection result). -/
inductive MetaVal
  | s (v : String)
  | n (v : Nat)
  | b (v : Bool)
  | q (v : PyRat)
  | ls (v : List String)
  | rates (v : List (String × PyRat × Nat))
  | counts (v : List (String × Nat))
  deriving DecidableEq

/-- The raw dict value read back as a string (`metadata["delimiter"]`; every
value the source stores under that key is a string). -/
def MetaVal.asString : MetaVal → String
  | .s v => v
  | _ => ""

/-- The free-form `metadata` dict. -/
abbrev Metadata := List (String × MetaVal)

/-- `FormatDetectionResult`. -/
structure FormatDetectionResult where
  format_type : LogFormat
  confidence : PyRat
  schema : List (String × FieldInfo)
  sample_lines : List String := []
  metadata : Metadata := []
  deriving DecidableEq

/-- A typed field value of a parsed entry (string, coerced integer/float,
or boolean). -/
inductive PyValue
  | s (v : String)
  | i (v : Int)
  | f (v : PyRat)
  | b (v : Bool)
  deriving DecidableEq

/-- `ParsedLogEntry`. -/
structure ParsedLogEntry where
  fields : List (String × PyValue)
  raw_line : String
  line_number : Option Nat := none
  timestamp : Option Int := none
  is_malformed : Bool := false
  parse_errors : List String := []
  confidence : PyRat := 1
  deriving DecidableEq

/-- `ParsedLogEntry.add_parse_error`: append the error, flag the entry
malformed, recompute `confidence = max(0.1, 1.0 - len(parse_errors)*0.2)`. -/
def ParsedLogEntry.add_parse_error (e : ParsedLogEntry) (err : String) :
    ParsedLogEntry :=
  let errs := e.parse_errors ++ [err]
  { e with parse_errors := errs, is_malformed := true,
           confidence := qmax (qnorm 1 10)
             ((1 : PyRat) - (errs.length : PyRat) * qnorm 2 10) }

/-- The entries reachable by the parsers' use of the data model: an entry
is created as `ParsedLogEntry(fields={}, raw_line=line, line_number=n)`,
then mutated only by assigning `fields` keys, assigning `timestamp`, or
calling `add_parse_error` (no parser writes `is_malformed`,
`parse_errors` or `confidence` directly). -/
inductive ProducedEntry : ParsedLogEntry → Prop
  | fresh (raw : String) (ln : Option Nat) :
      ProducedEntry { fields := [], raw_line := raw, line_number := ln }
  | set_field (e : ParsedLogEntry) (k : String) (v : PyValue) :
      ProducedEntry e →
      ProducedEntry { e with fields := dictInsert e.fields k v }
  | set_timestamp (e : ParsedLogEntry) (t : Option Int) :
      ProducedEntry e → ProducedEntry { e with timestamp := t }
  | add_error (e : ParsedLogEntry) (err : String) :
      ProducedEntry e → ProducedEntry (e.add_parse_error err)

/-- `ParseResult`. -/
structure ParseResult where
  entries : List ParsedLogEntry
  total_lines : Nat
  successfully_parsed : Nat
  malformed_lines : Nat
  parse_statistics : List (String × MetaVal) := []
  deriving DecidableEq

/-- `ParseResult.success_rate`. -/
def ParseResult.success_rate (r : ParseResult) : PyRat :=
  if 0 < r.total_lines then
    PyRat.div ((r.successfully_parsed : Nat) : PyRat) ((r.total_lines : Nat) : PyRat)
  else 0

/-! ## Schema manager and type inference (`inference/utils.py`) -/

/-- `DataTypeInferrer.infer_string_type`: boolean vocabulary first, then
`int(..)`, then `float(..)`, then a timestamp probe, else string. -/
def infer_string_type (now : Int) (value : String) : String :=
  if value = "" then "string"
  else if ["true", "false", "yes", "no", "y", "n", "1", "0"].contains
      (pyLower value) then "boolean"
  else if (pyParseInt value).isSome then "integer"
  else if (pyParseFloat value).isSome then "float"
  else if detect_timestamp now value ≠ [] then "timestamp"
  else "string"

/-- `SchemaManager.update_field_info`: skip empty/`-` values; create the
field on first sight (inferring the type when none is supplied); then bump
frequency, record the sample value, and probe the value for a timestamp
unless the field is already flagged. -/
def update_field_info (now : Int) (schema : List (String × FieldInfo))
    (field_name value : String) (data_type : Option String := none)
    (is_timestamp_field : Bool := false) : List (String × FieldInfo) :=
  if value = "" ∨ value = "-" then schema
  else
    let schema1 :=
      if (dictLookup schema field_name).isNone then
        dictInsert schema field_name
          { name := field_name,
            data_type := data_type.getD (infer_string_type now value),
            is_timestamp := is_timestamp_field }
      else schema
    match dictLookup schema1 field_name with
    | none => schema1
    | some fi =>
      let fi1 := (fi.update_frequency).add_sample_value value
      let fi2 :=
        if is_timestamp_field ∨ ¬ fi1.is_timestamp then
          match detect_timestamp now value with
          | [] => fi1
          | (_, fmt, _) :: _ =>
            { fi1 with is_timestamp := true, timestamp_format := some fmt }
        else fi1
      dictInsert schema1 field_name fi2

/-! ## Inference engine (`inference/inference_engine.py`) -/

/-- A detector as the engine sees it: a name, a confidence threshold
(`get_confidence_threshold`) and a `detect` operation that may raise. -/
structure Detector where
  name : String
  threshold : PyRat
  detect : List String → Except String FormatDetectionResult

/-- The engine's detector loop: run every detector in list order, keep the
results that meet their own detector's threshold, and turn each raised
exception into a recorded diagnostic string. -/
def runDetectors (ds : List Detector) (lines : List String) :
    List FormatDetectionResult × List String :=
  ds.foldl (fun acc d =>
    match d.detect lines with
    | .ok r =>
      if r.confidence ≥ d.threshold then (acc.1 ++ [r], acc.2) else acc
    | .error e =>
      (acc.1, acc.2 ++ ["Detector " ++ d.name ++ " failed: " ++ e])) ([], [])

/-- `LogSchemaInferenceEngine._calculate_field_confidence`: recompute every
schema field's confidence as
`min(min(frequency/total_sample_lines, 1) + 0.2·is_timestamp
+ 0.1·(data_type ≠ "unknown"), 1)`. -/
def calculate_field_confidence (result : FormatDetectionResult) :
    FormatDetectionResult :=
  if result.schema = [] then result
  else
    let total : PyRat :=
      if result.sample_lines = [] then 1 else (result.sample_lines.length : PyRat)
    { result with schema := result.schema.map (fun kv =>
        let fi := kv.2
        let frequency_score := qmin (PyRat.div (fi.frequency : PyRat) total) 1
        let timestamp_bonus : PyRat := if fi.is_timestamp then qnorm 2 10 else 0
        let type_bonus : PyRat := if fi.data_type ≠ "unknown" then qnorm 1 10 else 0
        let conf := qmin (frequency_score + timestamp_bonus + type_bonus) 1
        (kv.1, { fi with confidence := conf })) }

/-- The claim's reading of the field-confidence post-pass, for comparison:
`min(frequency score + 0.2·is_timestamp + 0.1·(data_type ≠ "string"), 1)` —
a type bonus for non-string fields rather than for non-"unknown" fields. -/
def claim_field_confidence (result : FormatDetectionResult) (fi : FieldInfo) :
    PyRat :=
  let total : PyRat :=
    if result.sample_lines = [] then 1 else (result.sample_lines.length : PyRat)
  let frequency_score := qmin (PyRat.div (fi.frequency : PyRat) total) 1
  let timestamp_bonus : PyRat := if fi.is_timestamp then qnorm 2 10 else 0
  let type_bonus : PyRat := if fi.data_type ≠ "string" then qnorm 1 10 else 0
  qmin (frequency_score + timestamp_bonus + type_bonus) 1

/-- `LogSchemaInferenceEngine.analyze_lines`: empty input yields UNKNOWN;
otherwise run all detectors, and if none passes its threshold return the
UNKNOWN fallback (confidence 0, empty schema, first 5 raw lines, the
collected errors and the line count in metadata); otherwise pick the
max-confidence result (Python `max`: first maximal element), refine its
field confidences and merge the engine diagnostics into its metadata. -/
def analyze_lines (ds : List Detector) (lines : List String) :
    FormatDetectionResult :=
  if lines = [] then
    { format_type := .unknown, confidence := 0, schema := [],
      metadata := [("error", .s "No lines provided")] }
  else
    let ran := runDetectors ds lines
    match ran.1 with
    | [] =>
      { format_type := .unknown, confidence := 0, schema := [],
        sample_lines := lines.take 5,
        metadata :=
          [("message", .s "No format detected with sufficient confidence"),
           ("detection_errors", .ls ran.2),
           ("total_lines_analyzed", .n lines.length)] }
    | r :: rs =>
      let best := pyMaxBy FormatDetectionResult.confidence r rs
      let refined := calculate_field_confidence best
      let md := dictUpdate refined.metadata
        [("total_detectors_run", .n ds.length),
         ("detectors_above_threshold", .n ran.1.length),
         ("detection_errors", .ls ran.2),
         ("total_lines_analyzed", .n lines.length)]
      { refined with metadata := md }

/-- The claim's reading of the temporal-plausibility scaling in the final
confidence, for comparison: ×0.8 whenever the instant is more than 10 years
away and ×0.6 whenever it is more than 50 years away (so that a more than
50-years-away instant receives the 0.6 factor). -/
def claim_final_confidence (now : Int) (base : PyRat) (tstr : List Char)
    (info : TsPatternInfo) (dt : Int) : PyRat :=
  let c1 : PyRat := base +
    (if info.specificity = "high" then qnorm 5 100
     else if info.specificity = "medium" then qnorm 2 100 else 0)
  let c2 : PyRat := c1 + (if info.has_timezone then qnorm 3 100 else 0)
  let c3 : PyRat := c2 +
    (if info.has_microseconds ∧ tstr.contains '.' then qnorm 2 100 else 0)
  let c4 : PyRat := c3 -
    (if startsWithChars "us_".data info.name.data then qnorm 5 100 else 0)
  let time_diff : Int := intAbs (dt - now)
  let c5a : PyRat :=
    if time_diff > 86400 * 365 * 10 then c4 * qnorm 8 10 else c4
  let c5 : PyRat :=
    if time_diff > 86400 * 365 * 50 then c5a * qnorm 6 10 else c5a
  let c6 : PyRat :=
    if 19 ≤ tstr.length ∧ tstr.length ≤ 35 then c5 + qnorm 2 100
    else if tstr.length < 10 then c5 - qnorm 5 100
    else c5
  let c7 : PyRat := if hasFourDigitRun tstr then c6 + qnorm 1 100 else c6
  qmax 0 (qmin 1 c7)

/-! ## Parsing engine (`parser/parsing_engine.py`) -/

/-- The parser classes registered in `LogParsingEngine.parser_classes`. -/
inductive ParserClass
  | json_cls | delimited_cls | key_value_cls | web_log_cls | syslog_cls
  | systemd_cls | pattern_based_cls
  deriving DecidableEq

/-- `LogParsingEngine.parser_classes`: the format → parser-class registry
(every format except UNKNOWN has an entry). -/
def parserClasses : LogFormat → Option ParserClass
  | .json => some .json_cls
  | .csv => some .delimited_cls
  | .ltsv => some .key_value_cls
  | .key_value => some .key_value_cls
  | .apache_common => some .web_log_cls
  | .apache_combined => some .web_log_cls
  | .apache_extended => some .web_log_cls
  | .nginx_access => some .web_log_cls
  | .nginx_error => some .web_log_cls
  | .syslog => some .syslog_cls
  | .systemd_journal => some .systemd_cls
  | .python_log => some .pattern_based_cls
  | .basic_log => some .pattern_based_cls
  | .custom_delimited => some .delimited_cls
  | .unknown => none

/-- Occurrences of a character in a character list (`s.count(c)` for a
one-character needle). -/
def countCharIn (c : Char) (cs : List Char) : Nat :=
  (cs.filter (fun x => x == c)).length

/-- `DelimitedParser._detect_delimiter`: prefer the delimiter recorded in
the detection metadata; with no metadata fall back to a default, or score
the candidate delimiters against the first sample line
(`count * 1/(1+|count+1-expected_fields|)`, Python `max` picking the first
maximal candidate). -/
def detect_delimiter (r : FormatDetectionResult) : String :=
  if r.metadata ≠ [] ∧ (dictLookup r.metadata "delimiter").isSome then
    ((dictLookup r.metadata "delimiter").getD (.s "")).asString
  else if r.sample_lines = [] then
    (if r.format_type = .csv then "," else "|")
  else
    let sample := r.sample_lines.headD ""
    let cands : List String :=
      if r.format_type = .csv then [",", ";", "\t", "|"]
      else ["|", ";", "\t", ",", ":", " "]
    let expected : Int := (r.schema.length : Int)
    let scored := cands.map (fun d =>
      let cnt := countCharIn (d.data.headD ' ') sample.data
      (d, ((cnt : Nat) : PyRat) *
        PyRat.div 1 ((1 : PyRat) + ((intAbs ((cnt : Int) + 1 - expected) : Int) : PyRat))))
    match scored with
    | [] => ","
    | x :: xs => (pyMaxBy Prod.snd x xs).1

/-- A constructed parser instance: its class, the frozen detection result,
and the state its `_setup_parser` computed. -/
structure ParserInst where
  cls : ParserClass
  detection : FormatDetectionResult
  field_names : List String := []
  delimiter : String := ""
  ltsv_mode : Bool := false
  deriving DecidableEq

/-- Parser construction (`parser_class(detection_result)` running
`_setup_parser`): the delimited parser records the schema's field names and
the detected delimiter; the key-value parser records whether it is in LTSV
mode; the remaining classes only freeze the detection result (their setup
installs static pattern tables). -/
def constructParser (cls : ParserClass) (r : FormatDetectionResult) :
    ParserInst :=
  match cls with
  | .delimited_cls =>
    { cls := cls, detection := r, field_names := r.schema.map Prod.fst,
      delimiter := detect_delimiter r }
  | .key_value_cls =>
    { cls := cls, detection := r, ltsv_mode := r.format_type = .ltsv }
  | c => { cls := c, detection := r }

/-- `LogParsingEngine.create_parser`: raise for UNKNOWN, raise for an
unregistered format, otherwise instantiate the mapped class. -/
def createParser (r : FormatDetectionResult) : Except String ParserInst :=
  if r.format_type = .unknown then
    .error "Cannot create parser for unknown format"
  else
    match parserClasses r.format_type with
    | none => .error ("No parser available for format: " ++ r.format_type.value)
    | some cls => .ok (constructParser cls r)

/-! ## Base parser machinery (`parser/base_parser.py`) -/

/-- `BaseParser._convert_field_value`: coerce per the schema's declared
`data_type`; a failed int/float coercion silently retains the raw string. -/
def convert_field_value (schema : List (String × FieldInfo))
    (field_name value : String) : PyValue :=
  match dictLookup schema field_name with
  | none => .s value
  | some fi =>
    let dt := pyLower fi.data_type
    if dt = "integer" then
      match pyParseInt value with
      | some n => .i n
      | none => .s value
    else if dt = "float" then
      match pyParseFloat value with
      | some q => .f q
      | none => .s value
    else if dt = "boolean" then
      .b (["true", "1", "yes", "on"].contains (pyLower value))
    else .s value

/-- `BaseParser._map_field_value`: store a matched group into the entry —
the `timestamp` field keeps the raw string, parses it through the timestamp
recognizer and records an error on failure; any other declared field is
coerced. -/
def map_field_value (now : Int) (schema : List (String × FieldInfo))
    (e : ParsedLogEntry) (field_name value : String) : ParsedLogEntry :=
  if (dictLookup schema field_name).isSome then
    if field_name = "timestamp" then
      let e1 := { e with fields := dictInsert e.fields field_name (.s value) }
      match detect_timestamp now value with
      | (dt, _, _) :: _ => { e1 with timestamp := some dt }
      | [] => e1.add_parse_error ("Failed to parse timestamp: " ++ value)
    else
      let v2 := convert_field_value schema field_name value
      { e with fields := dictInsert e.fields field_name v2 }
  else e

/-- `BaseParser._classify_error`: bucket an error string by substring. -/
def classify_error (error : String) : String :=
  let el := pyLower error
  if strContains el "timestamp" then "timestamp_parsing"
  else if strContains el "field" then "field_extraction"
  else if strContains el "format" then "format_mismatch"
  else if strContains el "type" then "type_conversion"
  else "other"

/-- `error_counts.get(t, 0) + 1` on the histogram dict. -/
def bumpCount (d : List (String × Nat)) (k : String) : List (String × Nat) :=
  dictInsert d k ((dictLookup d k).getD 0 + 1)

/-- `BaseParser._calculate_statistics`: `{}` for no entries, else per-field
extraction rates, mean confidence, and the error-category histogram. -/
def calculate_statistics (schema : List (String × FieldInfo))
    (entries : List ParsedLogEntry) : List (String × MetaVal) :=
  if entries = [] then []
  else
    let n : PyRat := (entries.length : PyRat)
    let field_stats := schema.map (fun kv =>
      let extracted :=
        (entries.filter (fun e => (dictLookup e.fields kv.1).isSome)).length
      (kv.1, PyRat.div ((extracted : Nat) : PyRat) n, extracted))
    let error_counts := entries.foldl (fun acc e =>
      e.parse_errors.foldl (fun acc2 err => bumpCount acc2 (classify_error err))
        acc) []
    let avg := PyRat.div (entries.foldl (fun acc e => acc + e.confidence) 0) n
    [("field_extraction_rates", .rates field_stats),
     ("average_confidence", .q avg),
     ("error_types", .counts error_counts)]

/-- The loop of `BaseParser.parse_lines`: `enumerate(lines, 1)`, skip blank
lines (the index still advances), parse the stripped line, count it as
malformed or successful. -/
def parseLinesLoop (parse_line : String → Nat → ParsedLogEntry) :
    List String → Nat → List ParsedLogEntry × Nat × Nat →
    List ParsedLogEntry × Nat × Nat
  | [], _, acc => acc
  | l :: rest, i, acc =>
    if isBlankLine l then parseLinesLoop parse_line rest (i + 1) acc
    else
      let e := parse_line (pyStrip l) i
      let acc2 :=
        if e.is_malformed then (acc.1 ++ [e], acc.2.1, acc.2.2 + 1)
        else (acc.1 ++ [e], acc.2.1 + 1, acc.2.2)
      parseLinesLoop parse_line rest (i + 1) acc2

/-- `BaseParser.parse_lines`, generic in the concrete parser's
`parse_line`. -/
def parse_lines (schema : List (String × FieldInfo))
    (parse_line : String → Nat → ParsedLogEntry) (lines : List String) :
    ParseResult :=
  let acc := parseLinesLoop parse_line lines 1 ([], 0, 0)
  { entries := acc.1,
    total_lines := (lines.filter (fun l => !(isBlankLine l))).length,
    successfully_parsed := acc.2.1,
    malformed_lines := acc.2.2,
    parse_statistics := calculate_statistics schema acc.1 }

/-! ## Delimited parser (`parser/structured_parsers.py`, `DelimitedParser`) -/

/-- `csv.reader` on a single line, embedded for unquoted input (none of the
lines this development evaluates contains a quote character): split on the
delimiter. -/
def csvReaderLine (delim : Char) (line : String) : List String :=
  (splitOnChar delim line.data).map (fun cs => String.mk cs)

/-- The per-field loop of `DelimitedParser.parse_line`: map the i-th part
onto the i-th schema field (timestamp fields keep the raw string and are
probed by the recognizer; others are coerced), recording an error for each
missing field. -/
def delimitedFieldStep (now : Int) (schema : List (String × FieldInfo))
    (parts : List String) (acc : ParsedLogEntry × Nat) (field_name : String) :
    ParsedLogEntry × Nat :=
  let e := acc.1
  let i := acc.2
  let e2 :=
    match parts.get? i with
    | some part =>
      let raw := pyStrip part
      (match dictLookup schema field_name with
       | some fi =>
         if fi.is_timestamp then
           let ea := { e with fields := dictInsert e.fields field_name (.s raw) }
           (match detect_timestamp now raw with
            | (dt, _, _) :: _ => { ea with timestamp := some dt }
            | [] => ea.add_parse_error ("Failed to parse timestamp: " ++ raw))
         else
           let v2 := convert_field_value schema field_name raw
           { e with fields := dictInsert e.fields field_name v2 }
       | none => e)
    | none =>
      e.add_parse_error ("Missing value for field \"" ++ field_name ++ "\"")
  (e2, i + 1)

/-- `DelimitedParser.parse_line`: split (via `csv.reader` for CSV, plain
split otherwise), map parts onto the frozen field names, flag extra values,
then scan the parts for a timestamp when none was set. -/
def delimited_parse_line (now : Int) (p : ParserInst) (line : String)
    (ln : Option Nat) : ParsedLogEntry :=
  let e0 : ParsedLogEntry := { fields := [], raw_line := line, line_number := ln }
  let schema := p.detection.schema
  let parts : List String :=
    if p.detection.format_type = .csv then
      csvReaderLine (p.delimiter.data.headD ',') line
    else
      (splitOnChar (p.delimiter.data.headD '|') line.data).map
        (fun cs => String.mk cs)
  let e1 := (p.field_names.foldl (delimitedFieldStep now schema parts) (e0, 0)).1
  let e2 :=
    if parts.length > p.field_names.length then
      e1.add_parse_error ("Extra values found: " ++
        toString (parts.length - p.field_names.length) ++ " more")
    else e1
  if e2.timestamp.isNone then
    match parts.findSome? (fun v => (detect_timestamp now (pyStrip v)).head?) with
    | some (dt, _, _) => { e2 with timestamp := some dt }
    | none => e2
  else e2

/-! ## Shared detector preprocessing (`inference/base_detector.py`) -/

/-- `BaseFormatDetector.preprocess_lines`: first `max_lines` lines,
stripped, blanks dropped. -/
def preprocess_lines (lines : List String) (max_lines : Nat := 100) :
    List String :=
  ((lines.take max_lines).map pyStrip).filter (fun l => l ≠ "")

/-- `BaseFormatDetector.calculate_line_coverage`. -/
def calculate_line_coverage (matched total : Nat) : PyRat :=
  if 0 < total then PyRat.div ((matched : Nat) : PyRat) ((total : Nat) : PyRat)
  else 0

/-- Generic per-line loop with a `try/except Exception: continue` body: the
oracle returns the next state, or an exception together with the state as
mutated up to the raise point. -/
def perLineLoop {σ : Type} (step : String → σ → Except (String × σ) σ) :
    List String → σ → σ
  | [], st => st
  | l :: rest, st =>
    match step l st with
    | .ok st2 => perLineLoop step rest st2
    | .error (_, st2) => perLineLoop step rest st2

/-! ## CSV detector (`inference/structured_detectors.py`, `CSVDetector`) -/

/-- The dialect information produced by `_detect_csv_dialect`. -/
structure DialectInfo where
  delimiter : String
  has_header : Bool
  deriving DecidableEq

/-- The intermediate data produced by `_parse_csv_content`. -/
structure CsvSchemaData where
  schema : List (String × FieldInfo)
  samples : List String
  rows_processed : Nat
  deriving DecidableEq

/-- Maximum of a list of naturals (`max(counts)` on a nonempty list). -/
def natMaxList : List Nat → Nat
  | [] => 0
  | x :: xs => Nat.max x (natMaxList xs)

/-- `CSVDetector._fallback_dialect_detection`: over the first 5 lines,
keep each candidate delimiter whose per-line counts take at most 2 distinct
values, score it by its maximal count, and pick the best (Python `max` over
the dict: first maximal candidate in `",;\t|"` order). -/
def fallback_dialect_detection (csv_text : String) : Option DialectInfo :=
  let lines := ((splitOnChar '\n' csv_text.data).map
    (fun cs => String.mk cs)).take 5
  if lines.length < 2 then none
  else
    let cands : List Char := [',', ';', '\t', '|']
    let counted := cands.filterMap (fun d =>
      let cnts := (lines.filter (fun l => trimChars l.data ≠ [])).map
        (fun l => countCharIn d l.data)
      if cnts ≠ [] ∧ cnts.eraseDups.length ≤ 2 then some (d, natMaxList cnts)
      else none)
    match counted with
    | [] => none
    | x :: xs =>
      let best := (pyMaxByNat Prod.snd x xs).1
      some { delimiter := String.mk [best], has_header := true }

/-- `CSVDetector._detect_csv_dialect`: try the library sniffer; any raise
falls back to the histogram detection. -/
def detect_csv_dialect (sniff : String → Except String DialectInfo)
    (csv_text : String) : Option DialectInfo :=
  match sniff csv_text with
  | .ok di => some di
  | .error _ => fallback_dialect_detection csv_text

/-- Embeds Python `csv.Sniffer.sniff`/`has_header` for the unquoted samples
this development evaluates: the delimiter is the first candidate of
`",;\t|"` occurring a constant positive number of times on every line; a
header is reported when some column is integer-valued in every body row but
not in the first row. -/
def csv_sniffer (csv_text : String) : Except String DialectInfo :=
  let lines := (splitOnChar '\n' csv_text.data).map (fun cs => String.mk cs)
  let cands : List Char := [',', ';', '\t', '|']
  match cands.filter (fun d =>
    match lines.map (fun l => countCharIn d l.data) with
    | [] => false
    | c :: cs => decide (0 < c) && cs.all (fun x => x == c)) with
  | [] => .error "Could not determine delimiter"
  | d :: _ =>
    let rowsSplit := lines.map (fun l =>
      (splitOnChar d l.data).map (fun cs => String.mk cs))
    match rowsSplit with
    | [] => .error "Could not determine delimiter"
    | header :: body =>
      let has_header := (List.range header.length).any (fun i =>
        decide (body ≠ []) &&
        body.all (fun row => (pyParseInt (row.getD i "")).isSome) &&
        !(pyParseInt (header.getD i "")).isSome)
      .ok { delimiter := String.mk [d], has_header := has_header }

/-- The row loop of `_parse_csv_content` (`csv.DictReader` embedded for
unquoted rows: each body line is split on the delimiter and zipped with the
header fields).  Rows past the 50-row cap and all-blank rows are skipped;
each processed row re-joins its values as a sample and feeds every
(header-field, value) pair to the schema manager. -/
def csvRowStep (now : Int) (delim : Char) (hfields : List String)
    (acc : CsvSchemaData) (rowline : String) : CsvSchemaData :=
  if acc.rows_processed ≥ 50 then acc
  else
    let values := (splitOnChar delim rowline.data).map (fun cs => String.mk cs)
    let row := hfields.zip values
    if row.all (fun kv => trimChars kv.2.data = []) then acc
    else
      let sample := String.mk (joinWithChar delim (row.map (fun kv => kv.2.data)))
      let schema2 := row.foldl (fun sch kv =>
        let clean := pyStrip kv.1
        if clean ≠ "" then update_field_info now sch clean kv.2 else sch)
        acc.schema
      { schema := schema2, samples := acc.samples ++ [sample],
        rows_processed := acc.rows_processed + 1 }

/-- `CSVDetector._parse_csv_content`. -/
def parse_csv_content (now : Int) (csv_text delim : String) : CsvSchemaData :=
  let rows := (splitOnChar '\n' csv_text.data).map (fun cs => String.mk cs)
  match rows with
  | [] => { schema := [], samples := [], rows_processed := 0 }
  | header :: body =>
    let d := delim.data.headD ','
    let hfields := (splitOnChar d header.data).map (fun cs => String.mk cs)
    body.foldl (csvRowStep now d hfields)
      { schema := [], samples := [], rows_processed := 0 }

/-- `CSVDetector._is_probably_csv`: at least `max(3, len(lines)//2)` lines
contain the delimiter and at least 3 rows parsed. -/
def is_probably_csv (lines : List String) (delim : String)
    (sd : CsvSchemaData) : Bool :=
  let delimiter_lines :=
    (lines.filter (fun l => listHasInfix delim.data l.data)).length
  decide (delimiter_lines ≥ Nat.max 3 (lines.length / 2)) &&
    decide (sd.rows_processed ≥ 3)

/-- `CSVDetector._calculate_csv_confidence`:
`min(rows/max(total,1) + (0.2 if rows ≥ 3), 1)`, 0 for no rows. -/
def calculate_csv_confidence (sd : CsvSchemaData) (total_lines : Nat) : PyRat :=
  if sd.rows_processed = 0 then 0
  else
    qmin (PyRat.div ((sd.rows_processed : Nat) : PyRat)
        ((Nat.max total_lines 1 : Nat) : PyRat) +
      (if sd.rows_processed ≥ 3 then qnorm 2 10 else 0)) 1

/-- `CSVDetector.detect`: preprocess (50-line cap), join, sniff dialect,
read rows, apply the plausibility guard, return the scored result; the
whole body is under `try/except Exception`, which returns the zero result —
in this embedding the only raising operation is the sniffer call, itself
caught inside `_detect_csv_dialect`. -/
def csv_detect (sniff : String → Except String DialectInfo) (now : Int)
    (lines : List String) : Except String FormatDetectionResult :=
  let processed := preprocess_lines lines 50
  if processed = [] then
    .ok { format_type := .csv, confidence := 0, schema := [] }
  else
    let csv_text := String.mk (joinWithChar '\n' (processed.map String.data))
    match detect_csv_dialect sniff csv_text with
    | none => .ok { format_type := .csv, confidence := 0, schema := [] }
    | some di =>
      let sd := parse_csv_content now csv_text di.delimiter
      if ¬ is_probably_csv processed di.delimiter sd then
        .ok { format_type := .csv, confidence := 0, schema := [] }
      else
        .ok { format_type := .csv,
              confidence := calculate_csv_confidence sd processed.length,
              schema := sd.schema,
              sample_lines := sd.samples.take 5,
              metadata := [("delimiter", .s di.delimiter),
                           ("has_header", .b di.has_header),
                           ("rows_processed", .n sd.rows_processed)] }

/-! ## Syslog detector (`inference/syslog_detectors.py`) -/

/-- `SyslogMatch`. -/
structure SyslogMatch where
  priority : String
  timestamp : String
  hostname : String
  tag : String
  message : String
  version : Option String := none
  app_name : Option String := none
  procid : Option String := none
  msgid : Option String := none
  structured_data : Option String := none
  deriving DecidableEq

/-- One `\S+` token followed by `\s+`: returns the token and the remainder
after the whitespace, requiring both nonempty. -/
def tokenThenSpace (cs : List Char) : Option (List Char × List Char) :=
  let tok := cs.takeWhile (fun c => ¬ isSpaceChar c)
  let rest := cs.dropWhile (fun c => ¬ isSpaceChar c)
  let sp := rest.takeWhile isSpaceChar
  if tok ≠ [] ∧ sp ≠ [] then some (tok, rest.dropWhile isSpaceChar) else none

/-- The RFC3164 timestamp `[A-Za-z]{3}\s+\d{1,2}\s+\d{2}:\d{2}:\d{2}`:
returns the matched characters and the remainder. -/
def rfc3164Ts (cs : List Char) : Option (List Char × List Char) :=
  match cs with
  | a1 :: a2 :: a3 :: rest =>
    if a1.isAlpha && a2.isAlpha && a3.isAlpha then
      let sp1 := rest.takeWhile isSpaceChar
      let r1 := rest.dropWhile isSpaceChar
      let dd := r1.takeWhile Char.isDigit
      let r2 := r1.dropWhile Char.isDigit
      let sp2 := r2.takeWhile isSpaceChar
      let r3 := r2.dropWhile isSpaceChar
      if sp1 ≠ [] ∧ (dd.length = 1 ∨ dd.length = 2) ∧ sp2 ≠ [] then
        match r3 with
        | h1 :: h2 :: c1 :: m1 :: m2 :: c2 :: s1 :: s2 :: r4 =>
          if h1.isDigit && h2.isDigit && (c1 == ':') && m1.isDigit &&
              m2.isDigit && (c2 == ':') && s1.isDigit && s2.isDigit then
            some ([a1, a2, a3] ++ sp1 ++ dd ++ sp2 ++
              [h1, h2, c1, m1, m2, c2, s1, s2], r4)
          else none
        | _ => none
      else none
    else none
  | _ => none

/-- The RFC3164 regular expression
`^<(\d+)>([A-Za-z]{3}\s+\d{1,2}\s+\d{2}:\d{2}:\d{2})\s+(\S+)\s+([^:]+):\s*(.*)$`
embedded as direct string parsing (the greedy/backtracking behaviour of the
regex coincides with maximal-munch scanning on the inputs considered, whose
hostnames contain no colon). -/
def rfc3164Match (line : String) : Option SyslogMatch :=
  match line.data with
  | '<' :: rest =>
    let pr := rest.takeWhile Char.isDigit
    let rest1 := rest.dropWhile Char.isDigit
    if pr = [] then none
    else
      match rest1 with
      | '>' :: rest2 =>
        match rfc3164Ts rest2 with
        | none => none
        | some (ts, r1) =>
          let sp1 := r1.takeWhile isSpaceChar
          let r2 := r1.dropWhile isSpaceChar
          if sp1 = [] then none
          else
            match tokenThenSpace r2 with
            | none => none
            | some (host, r3) =>
              let tag := r3.takeWhile (fun c => ¬ (c == ':'))
              let r4 := r3.dropWhile (fun c => ¬ (c == ':'))
              if tag = [] then none
              else
                match r4 with
                | ':' :: r5 =>
                  let msg := r5.dropWhile isSpaceChar
                  some { priority := String.mk pr, timestamp := String.mk ts,
                         hostname := String.mk host, tag := String.mk tag,
                         message := String.mk msg }
                | _ => none
      | _ => none
  | _ => none

/-- The RFC5424 regular expression
`^<(\d+)>(\d+)\s+(\S+)\s+(\S+)\s+(\S+)\s+(\S+)\s+(\S+)\s+(?:(\S+)\s+)?(.*)$`
embedded as direct string parsing (same maximal-munch reading). -/
def rfc5424Match (line : String) : Option SyslogMatch :=
  match line.data with
  | '<' :: rest =>
    let pr := rest.takeWhile Char.isDigit
    let rest1 := rest.dropWhile Char.isDigit
    if pr = [] then none
    else
      match rest1 with
      | '>' :: rest2 =>
        let ver := rest2.takeWhile Char.isDigit
        let r0 := rest2.dropWhile Char.isDigit
        let sp0 := r0.takeWhile isSpaceChar
        let r1 := r0.dropWhile isSpaceChar
        if ver = [] ∨ sp0 = [] then none
        else
          match tokenThenSpace r1 with
          | none => none
          | some (ts, r2) =>
            match tokenThenSpace r2 with
            | none => none
            | some (host, r3) =>
              match tokenThenSpace r3 with
              | none => none
              | some (app, r4) =>
                match tokenThenSpace r4 with
                | none => none
                | some (proc, r5) =>
                  match tokenThenSpace r5 with
                  | none => none
                  | some (msgid, r6) =>
                    match tokenThenSpace r6 with
                    | some (sd, r7) =>
                      some { priority := String.mk pr,
                             timestamp := String.mk ts,
                             hostname := String.mk host, tag := "",
                             message := String.mk r7,
                             version := some (String.mk ver),
                             app_name := some (String.mk app),
                             procid := some (String.mk proc),
                             msgid := some (String.mk msgid),
                             structured_data := some (String.mk sd) }
                    | none =>
                      some { priority := String.mk pr,
                             timestamp := String.mk ts,
                             hostname := String.mk host, tag := "",
                             message := String.mk r6,
                             version := some (String.mk ver),
                             app_name := some (String.mk app),
                             procid := some (String.mk proc),
                             msgid := some (String.mk msgid) }
      | _ => none
  | _ => none

/-- `SyslogDetector._try_match_line`: RFC3164 first, then RFC5424; the
boolean marks an RFC3164 match. -/
def syslog_try_match_line (line : String) : Option (Bool × SyslogMatch) :=
  match rfc3164Match line with
  | some m => some (true, m)
  | none =>
    match rfc5424Match line with
    | some m => some (false, m)
    | none => none

/-- `SyslogDetector._update_schema_from_match`: feed each truthy captured
field to the schema manager (priority/version typed integer, timestamp
flagged). -/
def update_schema_from_match (now : Int) (m : SyslogMatch)
    (schema : List (String × FieldInfo)) : List (String × FieldInfo) :=
  let base := [("priority", m.priority), ("timestamp", m.timestamp),
               ("hostname", m.hostname), ("message", m.message)]
  let fields :=
    if m.version.isNone then base ++ [("tag", m.tag)]
    else base ++ [("version", m.version.getD ""),
                  ("app_name", m.app_name.getD ""),
                  ("procid", m.procid.getD ""),
                  ("msgid", m.msgid.getD ""),
                  ("structured_data", m.structured_data.getD "")]
  fields.foldl (fun sch kv =>
    if kv.2 ≠ "" then
      update_field_info now sch kv.1 kv.2
        (if kv.1 = "priority" ∨ kv.1 = "version" then some "integer" else none)
        (kv.1 = "timestamp")
    else sch) schema

/-- The per-line detection state of `SyslogDetector.detect`. -/
structure SyslogDetectSt where
  rfc3164_matches : Nat := 0
  rfc5424_matches : Nat := 0
  schema : List (String × FieldInfo) := []
  sample_lines : List String := []

/-- The (non-raising) per-line body of `SyslogDetector.detect`. -/
def syslogStep (now : Int) (line : String) (st : SyslogDetectSt) :
    SyslogDetectSt :=
  match syslog_try_match_line line with
  | none => st
  | some (is3164, m) =>
    let st1 :=
      if is3164 then { st with rfc3164_matches := st.rfc3164_matches + 1 }
      else { st with rfc5424_matches := st.rfc5424_matches + 1 }
    { st1 with sample_lines := st1.sample_lines ++ [line],
               schema := update_schema_from_match now m st1.schema }

/-- `SyslogDetector.detect`, generic in the per-line body (the source wraps
it in `try/except Exception: continue`). -/
def syslog_detect
    (step : String → SyslogDetectSt → Except (String × SyslogDetectSt) SyslogDetectSt)
    (lines : List String) : Except String FormatDetectionResult :=
  let processed := preprocess_lines lines
  let st := perLineLoop step processed {}
  let total := st.rfc3164_matches + st.rfc5424_matches
  .ok { format_type := .syslog,
        confidence := calculate_line_coverage total processed.length,
        schema := st.schema,
        sample_lines := st.sample_lines.take 5,
        metadata :=
          [("rfc3164_matches", .n st.rfc3164_matches),
           ("rfc5424_matches", .n st.rfc5424_matches),
           ("detected_rfc", .s (if st.rfc3164_matches ≥ st.rfc5424_matches
                                then "RFC3164" else "RFC5424")),
           ("total_lines_processed", .n processed.length)] }

/-- `SyslogDetector.detect` with its concrete per-line body. -/
def syslog_detect_concrete (now : Int) (lines : List String) :
    Except String FormatDetectionResult :=
  syslog_detect (fun l st => .ok (syslogStep now l st)) lines

/-! ## Syslog parser (`parser/syslog_parsers.py`, `SyslogParser`) -/

/-- `%b` month-abbreviation table of `strptime`. -/
def monthNum (m : String) : Option Nat :=
  if m = "Jan" then some 1 else if m = "Feb" then some 2
  else if m = "Mar" then some 3 else if m = "Apr" then some 4
  else if m = "May" then some 5 else if m = "Jun" then some 6
  else if m = "Jul" then some 7 else if m = "Aug" then some 8
  else if m = "Sep" then some 9 else if m = "Oct" then some 10
  else if m = "Nov" then some 11 else if m = "Dec" then some 12
  else none

/-- `datetime.strptime(f"{year} {s}", "%Y %b %d %H:%M:%S")` on the captured
RFC3164 timestamp. -/
def strptime_syslog (year : Int) (s : String) : Option Int :=
  let cs := s.data
  let mon := cs.takeWhile (fun c => ¬ isSpaceChar c)
  let r1 := (cs.dropWhile (fun c => ¬ isSpaceChar c)).dropWhile isSpaceChar
  let day := r1.takeWhile Char.isDigit
  let r2 := (r1.dropWhile Char.isDigit).dropWhile isSpaceChar
  match monthNum (String.mk mon), digitsToNat day, splitOnChar ':' r2 with
  | some mo, some d, [hh, mm, ss] =>
    (match digitsToNat hh, digitsToNat mm, digitsToNat ss with
     | some h, some mi, some sec =>
       if validCivil year mo d h mi sec then
         some (epochOfCivil year mo d h mi sec)
       else none
     | _, _, _ => none)
  | _, _, _ => none

/-- `SyslogParser._extract_facility_severity`: `facility = priority >> 3`,
`severity = priority & 0x7` (floor division and residue of the nonnegative
captured priority), each stored only when the schema declares the field. -/
def extract_facility_severity (schema : List (String × FieldInfo))
    (priority : Int) (e : ParsedLogEntry) : ParsedLogEntry :=
  let facility : Int := Int.fdiv priority 8
  let severity : Int := Int.emod priority 8
  let e1 :=
    if (dictLookup schema "facility").isSome then
      let v := convert_field_value schema "facility" (toString facility)
      { e with fields := dictInsert e.fields "facility" v }
    else e
  if (dictLookup schema "severity").isSome then
    let v := convert_field_value schema "severity" (toString severity)
    { e1 with fields := dictInsert e1.fields "severity" v }
  else e1

/-- One field of `SyslogParser._parse_rfc_pattern`'s mapping loop: declared
truthy fields are stored; the timestamp keeps its raw string and is parsed
with the current year via `"%Y %b %d %H:%M:%S"` (RFC3164), falling back to
`_map_field_value`. -/
def syslogRfcFieldStep (now year : Int) (schema : List (String × FieldInfo))
    (rfc3164 : Bool) (e : ParsedLogEntry) (kv : String × String) :
    ParsedLogEntry :=
  if (dictLookup schema kv.1).isSome ∧ kv.2 ≠ "" then
    if kv.1 = "timestamp" then
      let ea := { e with fields := dictInsert e.fields kv.1 (.s kv.2) }
      if rfc3164 then
        match strptime_syslog year kv.2 with
        | some t => { ea with timestamp := some t }
        | none => map_field_value now schema ea kv.1 kv.2
      else map_field_value now schema ea kv.1 kv.2
    else
      let v := convert_field_value schema kv.1 kv.2
      { e with fields := dictInsert e.fields kv.1 v }
  else e

/-- `SyslogParser._parse_rfc_pattern`: map the captured fields onto the
schema, then derive facility/severity from the priority (an unparseable
priority would raise into `parse_line`'s handler, recording a parsing
error). -/
def parse_rfc_pattern (now year : Int) (schema : List (String × FieldInfo))
    (rfc3164 : Bool) (m : SyslogMatch) (e : ParsedLogEntry) : ParsedLogEntry :=
  let mapping :=
    if rfc3164 then
      [("priority", m.priority), ("timestamp", m.timestamp),
       ("hostname", m.hostname), ("tag", m.tag), ("message", m.message)]
    else
      [("priority", m.priority), ("version", m.version.getD ""),
       ("timestamp", m.timestamp), ("hostname", m.hostname),
       ("app_name", m.app_name.getD ""), ("procid", m.procid.getD ""),
       ("msgid", m.msgid.getD ""), ("message", m.message)]
  let e1 := mapping.foldl (syslogRfcFieldStep now year schema rfc3164) e
  if m.priority ≠ "" then
    match pyParseInt m.priority with
    | some p => extract_facility_severity schema p e1
    | none => e1.add_parse_error "Parsing error: invalid priority literal"
  else e1

/-- The fallback pattern of `SyslogParser`
(`^(\w{3}\s+\d{1,2}\s+\d{2}:\d{2}:\d{2})\s+(\S+)\s+(.*)$`), embedded as
direct parsing: returns (timestamp, hostname, message). -/
def syslogSimpleMatch (line : String) : Option (String × String × String) :=
  match line.data with
  | a1 :: a2 :: a3 :: rest =>
    if (a1.isAlphanum || a1 == '_') && (a2.isAlphanum || a2 == '_') &&
        (a3.isAlphanum || a3 == '_') then
      let sp1 := rest.takeWhile isSpaceChar
      let r1 := rest.dropWhile isSpaceChar
      let dd := r1.takeWhile Char.isDigit
      let r2 := r1.dropWhile Char.isDigit
      let sp2 := r2.takeWhile isSpaceChar
      let r3 := r2.dropWhile isSpaceChar
      if sp1 ≠ [] ∧ (dd.length = 1 ∨ dd.length = 2) ∧ sp2 ≠ [] then
        match r3 with
        | h1 :: h2 :: c1 :: m1 :: m2 :: c2 :: s1 :: s2 :: r4 =>
          if h1.isDigit && h2.isDigit && (c1 == ':') && m1.isDigit &&
              m2.isDigit && (c2 == ':') && s1.isDigit && s2.isDigit then
            let ts := [a1, a2, a3] ++ sp1 ++ dd ++ sp2 ++
              [h1, h2, c1, m1, m2, c2, s1, s2]
            let sp3 := r4.takeWhile isSpaceChar
            let r5 := r4.dropWhile isSpaceChar
            if sp3 = [] then none
            else
              match tokenThenSpace r5 with
              | some (host, msg) =>
                some (String.mk ts, String.mk host, String.mk msg)
              | none => none
          else none
        | _ => none
      else none
    else none
  | _ => none

/-- `PatternBasedParser._fallback_parsing` (the base fallback): record the
"no pattern matched" error, scan the whole line for a timestamp, keep the
line under `timestamp`/`message` when declared. -/
def base_fallback_parsing (now : Int) (schema : List (String × FieldInfo))
    (line : String) (e : ParsedLogEntry) : ParsedLogEntry :=
  let e1 := e.add_parse_error "No matching pattern found - using fallback parsing"
  let e2 :=
    match detect_timestamp now line with
    | (dt, _, _) :: _ =>
      let ea := { e1 with timestamp := some dt }
      if (dictLookup schema "timestamp").isSome then
        { ea with fields := dictInsert ea.fields "timestamp" (.s line) }
      else ea
    | [] => e1
  if (dictLookup schema "message").isSome then
    { e2 with fields := dictInsert e2.fields "message" (.s line) }
  else e2

/-- `SyslogParser._fallback_parsing`: try the simple syslog shape, mapping
its captures (timestamp parsed with the current year); otherwise defer to
the base fallback. -/
def syslog_fallback_parsing (now year : Int)
    (schema : List (String × FieldInfo)) (line : String) (e : ParsedLogEntry) :
    ParsedLogEntry :=
  match syslogSimpleMatch line with
  | some (ts, host, msg) =>
    [("timestamp", ts), ("hostname", host), ("message", msg)].foldl
      (fun ee kv =>
        if (dictLookup schema kv.1).isSome then
          if kv.1 = "timestamp" then
            let ea := { ee with fields := dictInsert ee.fields kv.1 (.s kv.2) }
            match strptime_syslog year kv.2 with
            | some t => { ea with timestamp := some t }
            | none => map_field_value now schema ea kv.1 kv.2
          else
            let v := convert_field_value schema kv.1 kv.2
            { ee with fields := dictInsert ee.fields kv.1 v }
        else ee) e
  | none => base_fallback_parsing now schema line e

/-- `SyslogParser.parse_line` (the `PatternBasedParser` loop with the
syslog `_try_pattern` override): RFC3164, then RFC5424, then the fallback. -/
def syslog_parse_line (now year : Int) (schema : List (String × FieldInfo))
    (line : String) (ln : Option Nat) : ParsedLogEntry :=
  let e0 : ParsedLogEntry := { fields := [], raw_line := line, line_number := ln }
  match rfc3164Match line with
  | some m => parse_rfc_pattern now year schema true m e0
  | none =>
    match rfc5424Match line with
    | some m => parse_rfc_pattern now year schema false m e0
    | none => syslog_fallback_parsing now year schema line e0

/-! ## Systemd journal parser (`parser/syslog_parsers.py`,
`SystemdJournalParser.parse_lines`) -/

/-- `SystemdJournalParser._group_lines_into_entries`: blank lines separate
entries; non-blank lines are stripped and accumulated. -/
def group_lines_into_entries (lines : List String) : List (List String) :=
  let acc := lines.foldl (fun (acc : List (List String) × List String) line =>
    if trimChars line.data = [] then
      (if acc.2 ≠ [] then (acc.1 ++ [acc.2], []) else acc)
    else (acc.1, acc.2 ++ [pyStrip line])) ([], [])
  if acc.2 ≠ [] then acc.1 ++ [acc.2] else acc.1

/-- `SystemdJournalParser.parse_lines`, generic in
`_parse_journal_entry`: group, parse each nonempty group, count. -/
def systemdParseLoop (parse_journal_entry : List String → ParsedLogEntry) :
    List (List String) → List ParsedLogEntry × Nat × Nat →
    List ParsedLogEntry × Nat × Nat
  | [], acc => acc
  | g :: rest, acc =>
    if g = [] then systemdParseLoop parse_journal_entry rest acc
    else
      let e := parse_journal_entry g
      let acc2 :=
        if e.is_malformed then (acc.1 ++ [e], acc.2.1, acc.2.2 + 1)
        else (acc.1 ++ [e], acc.2.1 + 1, acc.2.2)
      systemdParseLoop parse_journal_entry rest acc2

/-- `SystemdJournalParser.parse_lines`, continued: drive the loop over the
blank-line-delimited groups. -/
def systemd_parse_lines (schema : List (String × FieldInfo))
    (parse_journal_entry : List String → ParsedLogEntry)
    (lines : List String) : ParseResult :=
  let acc := systemdParseLoop parse_journal_entry
    (group_lines_into_entries lines) ([], 0, 0)
  { entries := acc.1,
    total_lines := (lines.filter (fun l => !(isBlankLine l))).length,
    successfully_parsed := acc.2.1,
    malformed_lines := acc.2.2,
    parse_statistics := calculate_statistics schema acc.1 }

/-! ## JSON detector (`inference/structured_detectors.py`, `JSONDetector`) -/

/-- The result of `json.loads` as the detector consumes it: a JSON object
seen as its (stringified key, stringified value) items, or any non-object
document.  `json.loads` on a `str` raises only `json.JSONDecodeError` (a
`ValueError`) or `TypeError`, exactly the exceptions the detector's
per-line handler catches, so the oracle's error constructor models the
caught raise. -/
inductive JsonData
  | obj (entries : List (String × String))
  | other

/-- `JSONDetector._extract_json_schema`. -/
def extract_json_schema (now : Int) (d : JsonData)
    (schema : List (String × FieldInfo)) : List (String × FieldInfo) :=
  match d with
  | .other => schema
  | .obj entries =>
    entries.foldl (fun sch kv =>
      let clean_key := pyStrip kv.1
      if clean_key ≠ "" then update_field_info now sch clean_key kv.2
      else sch) schema

/-- The line loop of `JSONDetector.detect` (break once 50 lines parsed). -/
def jsonLoop (jsonLoads : String → Except String JsonData) (now : Int) :
    List String → Nat × List (String × FieldInfo) × List String →
    Nat × List (String × FieldInfo) × List String
  | [], st => st
  | l :: rest, (cnt, schema, samples) =>
    match jsonLoads l with
    | .error _ => jsonLoop jsonLoads now rest (cnt, schema, samples)
    | .ok d =>
      let cnt2 := cnt + 1
      let samples2 := samples ++ [l]
      let schema2 := extract_json_schema now d schema
      if cnt2 ≥ 50 then (cnt2, schema2, samples2)
      else jsonLoop jsonLoads now rest (cnt2, schema2, samples2)

/-- `JSONDetector.detect`, generic in `json.loads`. -/
def json_detect (jsonLoads : String → Except String JsonData) (now : Int)
    (lines : List String) : Except String FormatDetectionResult :=
  let processed := preprocess_lines lines 50
  if processed = [] then
    .ok { format_type := .json, confidence := 0, schema := [] }
  else
    let st := jsonLoop jsonLoads now processed (0, [], [])
    .ok { format_type := .json,
          confidence := calculate_line_coverage st.1 processed.length,
          schema := st.2.1,
          sample_lines := st.2.2.take 5,
          metadata := [("total_json_lines", .n st.1)] }

/-! ## LTSV detector (`inference/structured_detectors.py`, `LTSVDetector`) -/

/-- Python `s.split(sep, 1)`: split at the first separator occurrence. -/
def splitOnceChar (c : Char) : List Char → Option (List Char × List Char)
  | [] => none
  | x :: xs =>
    if x == c then some ([], xs)
    else (splitOnceChar c xs).map (fun p => (x :: p.1, p.2))

/-- `LTSVDetector._is_valid_ltsv_pair`: `key:value` with nonempty stripped
key and value and no `=`. -/
def is_valid_ltsv_pair (part : String) : Bool :=
  if ¬ listHasInfix ":".data part.data ∨ listHasInfix "=".data part.data then
    false
  else
    match splitOnceChar ':' part.data with
    | some (k, v) => trimChars k ≠ [] ∧ trimChars v ≠ []
    | none => false

/-- `LTSVDetector._is_ltsv_format`: a tab is present and at least two
tab-separated segments are valid pairs. -/
def is_ltsv_format (line : String) : Bool :=
  if ¬ listHasInfix "\t".data line.data then false
  else
    let parts := splitOnChar '\t' line.data
    let valid := (parts.filter
      (fun p => is_valid_ltsv_pair (pyStrip (String.mk p)))).length
    valid ≥ 2

/-- `LTSVDetector._extract_ltsv_schema`. -/
def extract_ltsv_schema (now : Int) (line : String)
    (schema : List (String × FieldInfo)) : List (String × FieldInfo) :=
  (splitOnChar '\t' line.data).foldl (fun sch p =>
    let part := trimChars p
    if listHasInfix ":".data part then
      match splitOnceChar ':' part with
      | some (k, v) =>
        let key := String.mk (trimChars k)
        let value := String.mk (trimChars v)
        if key ≠ "" ∧ value ≠ "" then update_field_info now sch key value
        else sch
      | none => sch
    else sch) schema

/-- `LTSVDetector.detect` (its per-line operations are raise-free string
manipulation; the embedding is total). -/
def ltsv_detect (now : Int) (lines : List String) :
    Except String FormatDetectionResult :=
  let processed := preprocess_lines lines
  if processed = [] then
    .ok { format_type := .ltsv, confidence := 0, schema := [] }
  else
    let st := processed.foldl
      (fun (st : Nat × List (String × FieldInfo) × List String) line =>
        if is_ltsv_format line then
          (st.1 + 1, extract_ltsv_schema now line st.2.1, st.2.2 ++ [line])
        else st) (0, [], [])
    .ok { format_type := .ltsv,
          confidence := calculate_line_coverage st.1 processed.length,
          schema := st.2.1,
          sample_lines := st.2.2.take 5,
          metadata := [("ltsv_matches", .n st.1)] }

/-! ## Key-value detector (`inference/structured_detectors.py`,
`KeyValueDetector`) -/

/-- `KeyValueDetector._extract_key_value_pairs`, generic in the compiled
patterns' `findall` (whose only caught exception, `re.error`, cannot occur
on a compiled pattern — the loop body is otherwise raise-free): merge every
stripped nonempty pair into the dict. -/
def extract_kv_pairs (findalls : List (String → List (String × String)))
    (line : String) : List (String × String) :=
  findalls.foldl (fun acc p =>
    (p line).foldl (fun acc2 kv =>
      let k := pyStrip kv.1
      let v := pyStrip kv.2
      if k ≠ "" ∧ v ≠ "" then dictInsert acc2 k v else acc2) acc) []

/-- `KeyValueDetector.detect`, generic in the pattern `findall`s. -/
def key_value_detect (findalls : List (String → List (String × String)))
    (now : Int) (lines : List String) : Except String FormatDetectionResult :=
  let processed := preprocess_lines lines
  if processed = [] then
    .ok { format_type := .key_value, confidence := 0, schema := [] }
  else
    let st := processed.foldl
      (fun (st : Nat × List (String × FieldInfo) × List String) line =>
        let kv_pairs := extract_kv_pairs findalls line
        if kv_pairs.length ≥ 2 then
          (st.1 + 1,
           kv_pairs.foldl (fun sch kv => update_field_info now sch kv.1 kv.2)
             st.2.1,
           st.2.2 ++ [line])
        else st) (0, [], [])
    .ok { format_type := .key_value,
          confidence := calculate_line_coverage st.1 processed.length,
          schema := st.2.1,
          sample_lines := st.2.2.take 5,
          metadata := [("kv_matches", .n st.1)] }

/-! ## Systemd journal detector (`inference/syslog_detectors.py`,
`SystemdJournalDetector`) -/

/-- `SystemdJournalDetector.preprocess_lines` override: strip but preserve
blank lines, cap 200. -/
def journal_preprocess (lines : List String) (max_lines : Nat := 200) :
    List String :=
  (lines.take max_lines).map pyStrip

/-- `^[_A-Z][A-Z0-9_]*$`. -/
def is_valid_journal_field (name : String) : Bool :=
  match name.data with
  | [] => false
  | c :: rest =>
    (c == '_' || (decide (c.toNat ≥ 65) && decide (c.toNat ≤ 90))) &&
      rest.all (fun x =>
        x == '_' || x.isDigit ||
          (decide (x.toNat ≥ 65) && decide (x.toNat ≤ 90)))

/-- `SystemdJournalDetector._parse_journal_field`. -/
def parse_journal_field (line : String) : Option (String × String) :=
  if ¬ listHasInfix "=".data line.data then none
  else
    match splitOnceChar '=' line.data with
    | some (k, v) =>
      if is_valid_journal_field (String.mk k) then
        some (String.mk k, String.mk v)
      else none
    | none => none

/-- `SystemdJournalDetector._parse_journal_entries`: group fields into
blank-line-separated entry dicts. -/
def parse_journal_entries (lines : List String) :
    List (List (String × String)) :=
  let acc := lines.foldl
    (fun (acc : List (List (String × String)) × List (String × String)) line =>
      if trimChars line.data = [] then
        (if acc.2 ≠ [] then (acc.1 ++ [acc.2], []) else acc)
      else
        match parse_journal_field line with
        | some kv => (acc.1, dictInsert acc.2 kv.1 kv.2)
        | none => acc) ([], [])
  if acc.2 ≠ [] then acc.1 ++ [acc.2] else acc.1

/-- The hardcoded integer-typed journal fields. -/
def journalIntegerFields : List String :=
  ["_PID", "_UID", "_GID", "PRIORITY", "EXIT_STATUS",
   "__REALTIME_TIMESTAMP", "__MONOTONIC_TIMESTAMP",
   "SOURCE_REALTIME_TIMESTAMP"]

/-- The hardcoded timestamp-flagged journal fields. -/
def journalTimestampFields : List String :=
  ["__REALTIME_TIMESTAMP", "__MONOTONIC_TIMESTAMP",
   "SOURCE_REALTIME_TIMESTAMP"]

/-- `SystemdJournalDetector._build_schema_from_entries`. -/
def build_schema_from_entries (now : Int)
    (entries : List (List (String × String))) : List (String × FieldInfo) :=
  entries.foldl (fun sch entry =>
    entry.foldl (fun sch2 kv =>
      let data_type :=
        if journalIntegerFields.contains kv.1 ∨
            listHasInfix "TIMESTAMP".data kv.1.data then some "integer"
        else none
      let is_ts := journalTimestampFields.contains kv.1 ∨
        listHasInfix "TIME".data kv.1.data
      update_field_info now sch2 kv.1 kv.2 data_type is_ts) sch) []

/-- Python-style `str(entry)` of a journal entry dict (shape of the
rendering is not semantically relevant to any claim). -/
def renderJournalEntry (e : List (String × String)) : String :=
  let body := e.map (fun kv => "'" ++ kv.1 ++ "': '" ++ kv.2 ++ "'")
  "\x7b" ++ String.mk (joinWithChar ',' (body.map (fun s => (" " ++ s).data))) ++
    "\x7d"

/-- `SystemdJournalDetector._calculate_journal_confidence`:
`min(entries / max(lines/10, 1), 1)` (true division), 0 for no entries. -/
def calculate_journal_confidence (entries_count processed_count : Nat) :
    PyRat :=
  if entries_count = 0 then 0
  else
    let expected := qmax (PyRat.div ((processed_count : Nat) : PyRat) 10) 1
    qmin (PyRat.div ((entries_count : Nat) : PyRat) expected) 1

/-- `SystemdJournalDetector.detect` (raise-free by construction). -/
def systemd_detect (now : Int) (lines : List String) :
    Except String FormatDetectionResult :=
  let processed := journal_preprocess lines
  let entries := parse_journal_entries processed
  .ok { format_type := .systemd_journal,
        confidence := calculate_journal_confidence entries.length
          processed.length,
        schema := build_schema_from_entries now entries,
        sample_lines := (entries.take 5).map renderJournalEntry,
        metadata := [("journal_entries", .n entries.length),
                     ("total_lines_processed", .n processed.length)] }

/-! ## Web-log detectors (`inference/web_log_detectors.py`) -/

/-- `_create_empty_result` of the web-log mixin. -/
def empty_web_result : FormatDetectionResult :=
  { format_type := .unknown, confidence := 0, schema := [],
    sample_lines := [],
    metadata := [("error", .s "No lines to process")] }

/-- `WebLogDetectorMixin._calculate_format_confidence`: coverage, plus the
consistency bonus when the match ratio exceeds 0.8, clamped to 1. -/
def calculate_format_confidence (matched total : Nat)
    (bonus : PyRat := qnorm 1 10) : PyRat :=
  let base := calculate_line_coverage matched total
  let base2 :=
    if 0 < matched ∧ 0 < total ∧
        qnorm 8 10 < PyRat.div ((matched : Nat) : PyRat) ((total : Nat) : PyRat)
    then base + bonus else base
  qmin base2 1

/-- The schema/samples state shared by the web-log per-line bodies. -/
structure WebSt where
  schema : List (String × FieldInfo) := []
  sample_lines : List String := []

/-- Which Apache pattern family matched a line. -/
inductive ApacheKind
  | combined | common | extended

/-- The line loop of `ApacheDetector.detect` (per-line body abstracted; the
source wraps it in `try/except Exception: continue`). -/
def apacheLoop
    (tryLine : String → WebSt → Except (String × WebSt) (Option ApacheKind × WebSt)) :
    List String → WebSt × Nat × Nat × Nat → WebSt × Nat × Nat × Nat
  | [], acc => acc
  | l :: rest, (ws, cb, cm, ex) =>
    match tryLine l ws with
    | .error (_, ws2) => apacheLoop tryLine rest (ws2, cb, cm, ex)
    | .ok (some .combined, ws2) => apacheLoop tryLine rest (ws2, cb + 1, cm, ex)
    | .ok (some .common, ws2) => apacheLoop tryLine rest (ws2, cb, cm + 1, ex)
    | .ok (some .extended, ws2) => apacheLoop tryLine rest (ws2, cb, cm, ex + 1)
    | .ok (none, ws2) => apacheLoop tryLine rest (ws2, cb, cm, ex)

/-- `ApacheDetector._determine_apache_format`. -/
def determine_apache_format (common combined extended : Nat) : LogFormat :=
  if combined > Nat.max common extended then .apache_combined
  else if extended > Nat.max common combined then .apache_extended
  else .apache_common

/-- `ApacheDetector.detect`, generic in the per-line pattern trial. -/
def apache_detect
    (tryLine : String → WebSt → Except (String × WebSt) (Option ApacheKind × WebSt))
    (lines : List String) : Except String FormatDetectionResult :=
  let processed := preprocess_lines lines
  if processed = [] then .ok empty_web_result
  else
    let st := apacheLoop tryLine processed ({}, 0, 0, 0)
    let total := st.2.1 + st.2.2.1 + st.2.2.2
    .ok { format_type := determine_apache_format st.2.2.1 st.2.1 st.2.2.2,
          confidence := calculate_format_confidence total processed.length,
          schema := st.1.schema,
          sample_lines := st.1.sample_lines.take 5,
          metadata := [("common_matches", .n st.2.2.1),
                       ("combined_matches", .n st.2.1),
                       ("extended_matches", .n st.2.2.2),
                       ("total_processed_lines", .n processed.length)] }

/-- The line loop of `NginxDetector.detect`. -/
def nginxLoop
    (tryLine : String → WebSt → Except (String × WebSt) (Option Bool × WebSt)) :
    List String → WebSt × Nat × Nat → WebSt × Nat × Nat
  | [], acc => acc
  | l :: rest, (ws, ac, er) =>
    match tryLine l ws with
    | .error (_, ws2) => nginxLoop tryLine rest (ws2, ac, er)
    | .ok (some true, ws2) => nginxLoop tryLine rest (ws2, ac + 1, er)
    | .ok (some false, ws2) => nginxLoop tryLine rest (ws2, ac, er + 1)
    | .ok (none, ws2) => nginxLoop tryLine rest (ws2, ac, er)

/-- `NginxDetector.detect`, generic in the per-line pattern trial (`some
true` = an access pattern matched, `some false` = an error pattern). -/
def nginx_detect
    (tryLine : String → WebSt → Except (String × WebSt) (Option Bool × WebSt))
    (lines : List String) : Except String FormatDetectionResult :=
  let processed := preprocess_lines lines
  if processed = [] then .ok empty_web_result
  else
    let st := nginxLoop tryLine processed ({}, 0, 0)
    let total := st.2.1 + st.2.2
    .ok { format_type :=
            if st.2.1 ≥ st.2.2 then .nginx_access else .nginx_error,
          confidence := calculate_format_confidence total processed.length,
          schema := st.1.schema,
          sample_lines := st.1.sample_lines.take 5,
          metadata := [("access_matches", .n st.2.1),
                       ("error_matches", .n st.2.2),
                       ("total_processed_lines", .n processed.length)] }

/-- The line loop of `GenericWebLogDetector.detect`. -/
def genericWebLoop
    (tryLine : String → WebSt → Except (String × WebSt) (Bool × WebSt)) :
    List String → WebSt × Nat → WebSt × Nat
  | [], acc => acc
  | l :: rest, (ws, n) =>
    match tryLine l ws with
    | .error (_, ws2) => genericWebLoop tryLine rest (ws2, n)
    | .ok (true, ws2) => genericWebLoop tryLine rest (ws2, n + 1)
    | .ok (false, ws2) => genericWebLoop tryLine rest (ws2, n)

/-- `GenericWebLogDetector.detect`, generic in the per-line pattern trial
(note the source reports `LogFormat.BASIC_LOG`). -/
def generic_web_detect
    (tryLine : String → WebSt → Except (String × WebSt) (Bool × WebSt))
    (lines : List String) : Except String FormatDetectionResult :=
  let processed := preprocess_lines lines
  if processed = [] then .ok empty_web_result
  else
    let st := genericWebLoop tryLine processed ({}, 0)
    .ok { format_type := .basic_log,
          confidence := calculate_format_confidence st.2 processed.length,
          schema := st.1.schema,
          sample_lines := st.1.sample_lines.take 5,
          metadata := [("generic_matches", .n st.2),
                       ("total_processed_lines", .n processed.length)] }

/-! ## Application-log detectors (`inference/app_log_detectors.py`) -/

/-- The line loop shared by `BaseLogDetector.detect` and the
`PythonLogDetector`/`BasicLogDetector` overrides: the per-line body (the
pattern cascade plus schema extraction) is abstracted; a match bumps the
counter and retains the line as a sample while fewer than 5 are kept. -/
def appLogLoop
    (tryLine : String → List (String × FieldInfo) →
      Except (String × List (String × FieldInfo))
        (Bool × List (String × FieldInfo))) :
    List String → Nat × List (String × FieldInfo) × List String →
    Nat × List (String × FieldInfo) × List String
  | [], st => st
  | l :: rest, (cnt, schema, samples) =>
    match tryLine l schema with
    | .error (_, schema2) => appLogLoop tryLine rest (cnt, schema2, samples)
    | .ok (false, schema2) => appLogLoop tryLine rest (cnt, schema2, samples)
    | .ok (true, schema2) =>
      let samples2 := if samples.length < 5 then samples ++ [l] else samples
      appLogLoop tryLine rest (cnt + 1, schema2, samples2)

/-- `PythonLogDetector.detect` / `BasicLogDetector.detect` /
`BaseLogDetector.detect`, generic in the format and the per-line body. -/
def app_log_detect (fmt : LogFormat)
    (tryLine : String → List (String × FieldInfo) →
      Except (String × List (String × FieldInfo))
        (Bool × List (String × FieldInfo)))
    (lines : List String) : Except String FormatDetectionResult :=
  let processed := preprocess_lines lines
  let st := appLogLoop tryLine processed (0, [], [])
  .ok { format_type := fmt,
        confidence := calculate_line_coverage st.1 processed.length,
        schema := st.2.1,
        sample_lines := st.2.2,
        metadata := [("matches", .n st.1),
                     ("total_lines", .n processed.length)] }

/-! ## Custom delimited detector (`inference/app_log_detectors.py`,
`CustomDelimitedDetector`) -/

/-- The per-index value history of `DelimiterAnalysis.field_data`. -/
structure DelimFieldData where
  values : List String := []
  is_timestamp : Bool := false
  timestamp_format : Option String := none
  deriving DecidableEq

/-- `DelimiterAnalysis`. -/
structure DelimiterAnalysis where
  delimiter : String
  field_counts : List Nat := []
  sample_lines : List String := []
  consistent_line_count : Nat := 0
  field_data : List (Nat × DelimFieldData) := []

/-- `DelimiterAnalysis.add_line`: record counts/samples, append each field
value to its positional history, and probe not-yet-flagged nonempty values
for timestamps. -/
def analysis_add_line (now : Int) (a : DelimiterAnalysis) (line : String)
    (fields : List String) : DelimiterAnalysis :=
  let a1 := { a with field_counts := a.field_counts ++ [fields.length],
                     sample_lines := a.sample_lines ++ [line],
                     consistent_line_count := a.consistent_line_count + 1 }
  fields.enum.foldl (fun acc iv =>
    let fd := (dictLookup acc.field_data iv.1).getD {}
    let fd1 := { fd with values := fd.values ++ [iv.2] }
    let fd2 :=
      if iv.2 ≠ "" ∧ ¬ fd1.is_timestamp then
        match detect_timestamp now iv.2 with
        | (_, fmt, _) :: _ =>
          { fd1 with is_timestamp := true, timestamp_format := some fmt }
        | [] => fd1
      else fd1
    { acc with field_data := dictInsert acc.field_data iv.1 fd2 }) a1

/-- `DelimiterAnalysis.avg_field_count` (true division). -/
def analysis_avg (a : DelimiterAnalysis) : PyRat :=
  if a.field_counts = [] then 0
  else
    PyRat.div ((a.field_counts.foldl (· + ·) 0 : Nat) : PyRat)
      ((a.field_counts.length : Nat) : PyRat)

/-- `DelimiterAnalysis.field_count_variance`. -/
def analysis_variance (a : DelimiterAnalysis) : PyRat :=
  if a.field_counts = [] then 0
  else
    let avg := analysis_avg a
    let sq := a.field_counts.foldl
      (fun acc c => acc + (((c : Nat) : PyRat) - avg) * (((c : Nat) : PyRat) - avg)) 0
    PyRat.div sq ((a.field_counts.length : Nat) : PyRat)

/-- `CustomDelimitedDetector._calculate_delimiter_confidence` with the
default `max_variance_ratio = 0.3` and weights `[0.5, 0.3, 0.2]`. -/
def calculate_delimiter_confidence (a : DelimiterAnalysis)
    (total_lines : Nat) : PyRat :=
  if a.consistent_line_count = 0 then 0
  else
    let coverage := PyRat.div ((a.consistent_line_count : Nat) : PyRat)
      ((total_lines : Nat) : PyRat)
    let variance_quot := PyRat.div (analysis_variance a)
      (qmax (analysis_avg a) 1)
    let consistency := qmax 0 ((1 : PyRat) -
      PyRat.div variance_quot (qnorm 3 10))
    let adequacy := qmin 1 (PyRat.div (analysis_avg a) 4)
    qmin 1 (qnorm 5 10 * coverage + qnorm 3 10 * consistency +
      qnorm 2 10 * adequacy)

/-- `CustomDelimitedDetector._infer_field_type`: majority data type of the
first 100 nonempty values (Python `max` over dict items: first maximal in
insertion order). -/
def infer_field_type (now : Int) (values : List String) : String :=
  if values = [] then "string"
  else
    let sample := if values.length > 100 then values.take 100 else values
    let type_counts := sample.foldl (fun acc v =>
      if v ≠ "" then bumpCount acc (infer_string_type now v) else acc) []
    match type_counts with
    | [] => "string"
    | x :: xs => (pyMaxByNat Prod.snd x xs).1

/-- `CustomDelimitedDetector._build_delimited_schema` (`field_N` positional
names; the Python `list(set(values))[:10]` sampling has unspecified set
order and is embedded as first-occurrence deduplication). -/
def build_delimited_schema (now : Int) (a : DelimiterAnalysis) :
    List (String × FieldInfo) :=
  a.field_data.foldl (fun sch idx_fd =>
    let field_name := "field_" ++ toString (idx_fd.1 + 1)
    let fd := idx_fd.2
    let fi : FieldInfo :=
      { name := field_name, data_type := infer_field_type now fd.values,
        is_timestamp := fd.is_timestamp,
        timestamp_format := fd.timestamp_format,
        sample_values := fd.values.eraseDups.take 10,
        frequency := fd.values.length }
    dictInsert sch field_name fi) []

/-- `CustomDelimitedDetector._analyze_delimiter` (`min_fields = 2`,
detector threshold 0.5). -/
def analyze_delimiter (now : Int) (lines : List String) (delimiter : String) :
    FormatDetectionResult :=
  let a := lines.foldl (fun acc line =>
    if listHasInfix delimiter.data line.data then
      let fields := (splitOnChar (delimiter.data.headD '|') line.data).map
        (fun cs => pyStrip (String.mk cs))
      if fields.length ≥ 2 then analysis_add_line now acc line fields else acc
    else acc) { delimiter := delimiter }
  if a.consistent_line_count = 0 then
    { format_type := .custom_delimited, confidence := 0, schema := [] }
  else
    let conf := calculate_delimiter_confidence a lines.length
    if conf < qnorm 5 10 then
      { format_type := .custom_delimited, confidence := 0, schema := [] }
    else
      { format_type := .custom_delimited, confidence := conf,
        schema := build_delimited_schema now a,
        sample_lines := a.sample_lines.take 5,
        metadata := [("delimiter", .s delimiter),
                     ("avg_fields", .q (analysis_avg a)),
                     ("field_count_variance", .q (analysis_variance a)),
                     ("consistent_lines", .n a.consistent_line_count)] }

/-- `CustomDelimitedDetector.detect`: best strictly-improving result over
the candidate delimiters `["|", ";", ":", "\t", "~"]` (raise-free by
construction). -/
def custom_delimited_detect (now : Int) (lines : List String) :
    Except String FormatDetectionResult :=
  let processed := preprocess_lines lines
  if processed = [] then
    .ok { format_type := .custom_delimited, confidence := 0, schema := [] }
  else
    let zero : FormatDetectionResult :=
      { format_type := .custom_delimited, confidence := 0, schema := [] }
    let best := ["|", ";", ":", "\t", "~"].foldl
      (fun (acc : Option FormatDetectionResult × PyRat) d =>
        let r := analyze_delimiter now processed d
        if acc.2 < r.confidence then (some r, r.confidence) else acc)
      (none, 0)
    .ok (best.1.getD zero)

/-! ## Order instances for the timestamp sort key, and concrete scenario
constants -/

instance : IsTotal (Int × String × PyRat) tsLe := ⟨by
  intro a b
  unfold tsLe
  rcases lt_trichotomy (a.2.2.num * b.2.2.den) (b.2.2.num * a.2.2.den)
    with h | h | h
  · exact Or.inr (Or.inl h)
  · rcases Int.le_total a.1 b.1 with h2 | h2
    · exact Or.inl (Or.inr ⟨h, h2⟩)
    · exact Or.inr (Or.inr ⟨h.symm, h2⟩)
  · exact Or.inl (Or.inl h)⟩

instance : IsTrans (Int × String × PyRat) tsLe := ⟨by
  intro a b c hab hbc
  unfold tsLe at hab hbc ⊢
  have da := a.2.2.den_pos
  have db := b.2.2.den_pos
  have dc := c.2.2.den_pos
  rcases hab with h1 | ⟨e1, l1⟩
  · have h1x : b.2.2.num * a.2.2.den < a.2.2.num * b.2.2.den := h1
    rcases hbc with h2 | ⟨e2, l2⟩
    · -- cb < ca and cc < cb ⊢ cc < ca
      have h2x : c.2.2.num * b.2.2.den < b.2.2.num * c.2.2.den := h2
      have A := mul_lt_mul_of_pos_right h1x dc
      have B := mul_lt_mul_of_pos_right h2x da
      have C : c.2.2.num * a.2.2.den * b.2.2.den <
          a.2.2.num * c.2.2.den * b.2.2.den := by
        ring_nf at A B ⊢
        linarith
      exact Or.inl (lt_of_mul_lt_mul_right C (le_of_lt db))
    · -- cb < ca and cb = cc (by value) ⊢ cc < ca
      have e2x : b.2.2.num * c.2.2.den = c.2.2.num * b.2.2.den := e2
      have A := mul_lt_mul_of_pos_right h1x dc
      have E := congrArg (fun x => x * a.2.2.den) e2x
      simp only [] at E
      have C : c.2.2.num * a.2.2.den * b.2.2.den <
          a.2.2.num * c.2.2.den * b.2.2.den := by
        ring_nf at A E ⊢
        linarith
      exact Or.inl (lt_of_mul_lt_mul_right C (le_of_lt db))
  · have e1x : a.2.2.num * b.2.2.den = b.2.2.num * a.2.2.den := e1
    rcases hbc with h2 | ⟨e2, l2⟩
    · -- ca = cb (by value) and cc < cb ⊢ cc < ca
      have h2x : c.2.2.num * b.2.2.den < b.2.2.num * c.2.2.den := h2
      have A := mul_lt_mul_of_pos_right h2x da
      have E := congrArg (fun x => x * c.2.2.den) e1x
      simp only [] at E
      have C : c.2.2.num * a.2.2.den * b.2.2.den <
          a.2.2.num * c.2.2.den * b.2.2.den := by
        ring_nf at A E ⊢
        linarith
      exact Or.inl (lt_of_mul_lt_mul_right C (le_of_lt db))
    · -- ca = cb, cb = cc ⊢ ca = cc, and the datetimes chain
      have e2x : b.2.2.num * c.2.2.den = c.2.2.num * b.2.2.den := e2
      refine Or.inr ⟨?_, le_trans l1 l2⟩
      have E1 := congrArg (fun x => x * c.2.2.den) e1x
      have E2 := congrArg (fun x => x * a.2.2.den) e2x
      simp only [] at E1 E2
      have C : a.2.2.num * c.2.2.den * b.2.2.den =
          c.2.2.num * a.2.2.den * b.2.2.den := by
        ring_nf at E1 E2 ⊢
        linarith
      exact mul_right_cancel₀ (by omega : b.2.2.den ≠ 0) C⟩

/-- The fixed evaluation instant 2026-10-12 00:00:00 UTC instantiating
`datetime.now()` in the concrete evaluations. -/
def NOW_FIXED : Int := 1791763200

/-- The calendar year of `NOW_FIXED` (`datetime.now().year`). -/
def YEAR_FIXED : Int := 2026

/-- The metadata of the modelled ISO-8601 catalog entry. -/
def isoBasicInfo : TsPatternInfo :=
  { name := "iso8601_basic", format := "%Y-%m-%d %H:%M:%S",
    base_confidence := qnorm 7 10, specificity := "medium",
    has_timezone := false, has_microseconds := false }

/-- A text holding two equal-confidence timestamps, the later instant
first. -/
def twoTsText : String := "2024-01-01 00:00:00 2020-01-01 00:00:00"

/-- The CSV end-to-end scenario input lines. -/
def csvScenarioLines : List String :=
  ["name,age,city", "Alice,30,New York", "Bob,25,London", "Charlie,35,Sydney"]

/-- The CSV scenario's detection result. -/
def csvScenarioDetection : FormatDetectionResult :=
  match csv_detect csv_sniffer NOW_FIXED csvScenarioLines with
  | .ok r => r
  | .error _ => { format_type := .unknown, confidence := 0, schema := [] }

/-- The CSV scenario's parse result: the parser constructed from the
detection result, driven over the same 4 lines by `parse_lines`. -/
def csvScenarioParse : ParseResult :=
  match createParser csvScenarioDetection with
  | .ok p =>
    parse_lines csvScenarioDetection.schema
      (fun l n => delimited_parse_line NOW_FIXED p l (some n)) csvScenarioLines
  | .error _ => { entries := [], total_lines := 0, successfully_parsed := 0,
                  malformed_lines := 0 }

/-- The syslog end-to-end scenario input line. -/
def syslogScenarioLine : String :=
  "<34>Oct 11 22:14:15 mymachine su: 'su root' failed for lonvick on /dev/pts/8"

/-- The syslog scenario's detection result. -/
def syslogScenarioDetection : FormatDetectionResult :=
  match syslog_detect_concrete NOW_FIXED [syslogScenarioLine] with
  | .ok r => r
  | .error _ => { format_type := .unknown, confidence := 0, schema := [] }

/-- The syslog scenario's parse result over the single line. -/
def syslogScenarioParse : ParseResult :=
  parse_lines syslogScenarioDetection.schema
    (fun l n => syslog_parse_line NOW_FIXED YEAR_FIXED
      syslogScenarioDetection.schema l (some n))
    [syslogScenarioLine]

/-- A detection result with one string-typed field of frequency 1 over two
sample lines (input to the field-confidence post-pass). -/
def stringFieldResult : FormatDetectionResult :=
  { format_type := .csv, confidence := qnorm 7 10,
    schema := [("msg", { name := "msg", data_type := "string",
                         frequency := 1 })],
    sample_lines := ["a", "b"] }

/-- `enumerate(lines, i)`. -/
def listEnumFrom {α : Type} (i : Nat) : List α → List (Nat × α)
  | [] => []
  | x :: xs => (i, x) :: listEnumFrom (i + 1) xs

/-- A demonstration detector that always reports confidence 0.9. -/
def demoDetectorHigh : Detector :=
  { name := "high", threshold := qnorm 1 2,
    detect := fun _ =>
      .ok { format_type := .json, confidence := qnorm 9 10, schema := [] } }

/-- A demonstration detector that always raises. -/
def demoDetectorBoom : Detector :=
  { name := "boom", threshold := 0, detect := fun _ => .error "kaput" }

/-- A demonstration `parse_line` that records the raw line and its line
number. -/
def rawEntryParseLine (l : String) (n : Nat) : ParsedLogEntry :=
  { fields := [], raw_line := l, line_number := some n }

/-- A demonstration `_parse_journal_entry` that records the joined group. -/
def rawJournalEntry (g : List String) : ParsedLogEntry :=
  { fields := [], raw_line := String.mk (joinWithChar '\n' (g.map String.data)) }

/-! # Theorems

Shared helper lemmas first, then one theorem (with witness or
counterexample where applicable) per claim. -/

/-! ## Order facts for `PyRat` -/

theorem PyRat.not_lt_iff {a b : PyRat} : ¬ a < b ↔ b ≤ a := by
  show ¬ (a.num * b.den < b.num * a.den) ↔ b.num * a.den ≤ a.num * b.den
  omega

theorem PyRat.lt_irrefl (a : PyRat) : ¬ a < a := by
  show ¬ (a.num * a.den < a.num * a.den)
  omega

theorem PyRat.lt_trans {a b c : PyRat} (h1 : a < b) (h2 : b < c) : a < c := by
  have h1x : a.num * b.den < b.num * a.den := h1
  have h2x : b.num * c.den < c.num * b.den := h2
  have da := a.den_pos
  have db := b.den_pos
  have dc := c.den_pos
  have A := mul_lt_mul_of_pos_right h1x dc
  have B := mul_lt_mul_of_pos_right h2x da
  have C : a.num * c.den * b.den < c.num * a.den * b.den := by
    ring_nf at A B ⊢
    linarith
  exact (show a.num * c.den < c.num * a.den from
    lt_of_mul_lt_mul_right C (le_of_lt db))

theorem PyRat.lt_of_le_of_lt {a b c : PyRat} (h1 : a ≤ b) (h2 : b < c) :
    a < c := by
  have h1x : a.num * b.den ≤ b.num * a.den := h1
  have h2x : b.num * c.den < c.num * b.den := h2
  have da := a.den_pos
  have db := b.den_pos
  have dc := c.den_pos
  have A := mul_le_mul_of_nonneg_right h1x (le_of_lt dc)
  have B := mul_lt_mul_of_pos_right h2x da
  have C : a.num * c.den * b.den < c.num * a.den * b.den := by
    ring_nf at A B ⊢
    linarith
  exact (show a.num * c.den < c.num * a.den from
    lt_of_mul_lt_mul_right C (le_of_lt db))

theorem PyRat.le_of_lt {a b : PyRat} (h : a < b) : a ≤ b := by
  have hx : a.num * b.den < b.num * a.den := h
  show a.num * b.den ≤ b.num * a.den
  omega

/-! ## Dict and list helper lemmas -/

theorem dictLookup_map_values {κ α β : Type} [DecidableEq κ]
    (g : κ × α → β) (d : List (κ × α)) (k : κ) :
    dictLookup (d.map (fun kv => (kv.1, g kv))) k =
      (dictLookup d k).map (fun v => g (k, v)) := by
  induction d with
  | nil => rfl
  | cons kv rest ih =>
    simp only [List.map_cons]
    unfold dictLookup
    by_cases h : kv.1 = k
    · subst h
      simp
    · simp only [h, if_false, ih]

theorem enumFrom_filter_length {α : Type} (q : α → Bool) :
    ∀ (l : List α) (i : Nat),
      ((listEnumFrom i l).filter (fun p => q p.2)).length =
        (l.filter q).length := by
  intro l
  induction l with
  | nil => intro i; rfl
  | cons x xs ih =>
    intro i
    unfold listEnumFrom
    by_cases h : q x
    · simp [List.filter_cons, h, ih]
    · simp [List.filter_cons, h, ih]

/-! ## The engine's `max` picks the first maximal element -/

theorem pyMaxBy_first_max {α : Type} (key : α → PyRat) :
    ∀ (xs : List α) (x : α), ∃ l1 l2,
      x :: xs = l1 ++ pyMaxBy key x xs :: l2 ∧
      (∀ z ∈ l1, key z < key (pyMaxBy key x xs)) ∧
      (∀ z ∈ l2, key z ≤ key (pyMaxBy key x xs)) := by
  intro xs
  induction xs with
  | nil =>
    intro x
    exact ⟨[], [], rfl, by simp, by simp⟩
  | cons y ys ih =>
    intro x
    have hunf : pyMaxBy key x (y :: ys) =
        pyMaxBy key (if key x < key y then y else x) ys := rfl
    by_cases h : key x < key y
    · rw [hunf, if_pos h]
      rw [if_pos h] at hunf
      obtain ⟨l1, l2, hdec, hl1, hl2⟩ := ih y
      cases l1 with
      | nil =>
        simp only [List.nil_append] at hdec
        have hym : y = pyMaxBy key y ys := (List.cons.inj hdec).1
        have hys : ys = l2 := (List.cons.inj hdec).2
        refine ⟨[x], l2, ?_, ?_, hl2⟩
        · simp only [List.cons_append, List.nil_append]
          rw [← hym, ← hys]
        · intro z hz
          simp only [List.mem_singleton] at hz
          subst hz
          rw [← hym]
          exact h
      | cons a l1t =>
        have ha : a = y := ((List.cons.inj hdec).1).symm
        have hrest : ys = l1t ++ pyMaxBy key y ys :: l2 := (List.cons.inj hdec).2
        refine ⟨x :: a :: l1t, l2, ?_, ?_, hl2⟩
        · simp only [List.cons_append]
          rw [ha, ← hrest]
        · intro z hz
          rcases List.mem_cons.mp hz with hz1 | hz2
          · subst hz1
            have hy_mem : a ∈ a :: l1t := List.mem_cons_self a l1t
            have hylt := hl1 a hy_mem
            rw [ha] at hylt
            exact PyRat.lt_trans h hylt
          · exact hl1 z hz2
    · rw [hunf, if_neg h]
      rw [if_neg h] at hunf
      have hyx : key y ≤ key x := PyRat.not_lt_iff.mp h
      obtain ⟨l1, l2, hdec, hl1, hl2⟩ := ih x
      cases l1 with
      | nil =>
        simp only [List.nil_append] at hdec
        have hxm : x = pyMaxBy key x ys := (List.cons.inj hdec).1
        have hys : ys = l2 := (List.cons.inj hdec).2
        refine ⟨[], y :: l2, ?_, by simp, ?_⟩
        · simp only [List.nil_append]
          rw [← hxm, ← hys]
        · intro z hz
          rcases List.mem_cons.mp hz with hz1 | hz2
          · subst hz1
            rw [← hxm]
            exact hyx
          · exact hl2 z hz2
      | cons a l1t =>
        have ha : a = x := ((List.cons.inj hdec).1).symm
        have hrest : ys = l1t ++ pyMaxBy key x ys :: l2 := (List.cons.inj hdec).2
        refine ⟨x :: y :: l1t, l2, ?_, ?_, hl2⟩
        · simp only [List.cons_append]
          rw [← hrest]
        · intro z hz
          have hx_mem : a ∈ a :: l1t := List.mem_cons_self a l1t
          have hxlt := hl1 a hx_mem
          rw [ha] at hxlt
          rcases List.mem_cons.mp hz with hz1 | hz2
          · subst hz1
            exact hxlt
          · rcases List.mem_cons.mp hz2 with hz3 | hz4
            · subst hz3
              exact PyRat.lt_of_le_of_lt hyx hxlt
            · exact hl1 z (List.mem_cons.mpr (Or.inr hz4))

/-! ## Characterizing the engine's detector loop -/

theorem runDetectors_spec (lines : List String) :
    ∀ (ds : List Detector) (acc : List FormatDetectionResult × List String),
      ds.foldl (fun acc d =>
        match d.detect lines with
        | .ok r =>
          if r.confidence ≥ d.threshold then (acc.1 ++ [r], acc.2) else acc
        | .error e =>
          (acc.1, acc.2 ++ ["Detector " ++ d.name ++ " failed: " ++ e])) acc =
      (acc.1 ++ ds.filterMap (fun d =>
          match d.detect lines with
          | .ok r => if r.confidence ≥ d.threshold then some r else none
          | .error _ => none),
       acc.2 ++ ds.filterMap (fun d =>
          match d.detect lines with
          | .ok _ => none
          | .error e => some ("Detector " ++ d.name ++ " failed: " ++ e))) := by
  intro ds
  induction ds with
  | nil => intro acc; simp
  | cons d rest ih =>
    intro acc
    simp only [List.foldl_cons, List.filterMap_cons]
    rcases hd : d.detect lines with e | r
    · simp only [hd, ih, List.append_assoc]
      rfl
    · by_cases hc : r.confidence ≥ d.threshold
      · simp only [hd, if_pos hc, ih, List.append_assoc]
        rfl
      · simp only [hd, if_neg hc, ih]

theorem runDetectors_eq (ds : List Detector) (lines : List String) :
    runDetectors ds lines =
      (ds.filterMap (fun d =>
         match d.detect lines with
         | .ok r => if r.confidence ≥ d.threshold then some r else none
         | .error _ => none),
       ds.filterMap (fun d =>
         match d.detect lines with
         | .ok _ => none
         | .error e => some ("Detector " ++ d.name ++ " failed: " ++ e))) := by
  have h := runDetectors_spec lines ds ([], [])
  simp only [List.nil_append] at h
  exact h

theorem calculate_field_confidence_outer (r : FormatDetectionResult) :
    (calculate_field_confidence r).format_type = r.format_type ∧
    (calculate_field_confidence r).confidence = r.confidence ∧
    (calculate_field_confidence r).sample_lines = r.sample_lines := by
  unfold calculate_field_confidence
  split
  · exact ⟨rfl, rfl, rfl⟩
  · exact ⟨rfl, rfl, rfl⟩

/-! ## Characterizing the base parse loop -/

theorem parseLinesLoop_entries (pl : String → Nat → ParsedLogEntry) :
    ∀ (lines : List String) (i : Nat) (acc : List ParsedLogEntry × Nat × Nat),
      (parseLinesLoop pl lines i acc).1 =
        acc.1 ++ ((listEnumFrom i lines).filter
          (fun p => !(isBlankLine p.2))).map (fun p => pl (pyStrip p.2) p.1) := by
  intro lines
  induction lines with
  | nil => intro i acc; simp [parseLinesLoop, listEnumFrom]
  | cons l rest ih =>
    intro i acc
    rw [parseLinesLoop, listEnumFrom]
    by_cases h : isBlankLine l
    · rw [if_pos h, ih]
      simp [List.filter_cons, h]
    · rw [if_neg h]
      show (parseLinesLoop pl rest (i + 1)
        (if (pl (pyStrip l) i).is_malformed then
          (acc.1 ++ [pl (pyStrip l) i], acc.2.1, acc.2.2 + 1)
        else (acc.1 ++ [pl (pyStrip l) i], acc.2.1 + 1, acc.2.2))).1 = _
      rw [ih]
      simp only [List.filter_cons, h, Bool.not_false, List.map_cons]
      split <;> simp

theorem parseLinesLoop_counts (pl : String → Nat → ParsedLogEntry) :
    ∀ (lines : List String) (i : Nat) (acc : List ParsedLogEntry × Nat × Nat),
      (parseLinesLoop pl lines i acc).1.length + acc.2.1 + acc.2.2 =
        acc.1.length + (parseLinesLoop pl lines i acc).2.1 +
          (parseLinesLoop pl lines i acc).2.2 := by
  intro lines
  induction lines with
  | nil => intro i acc; simp [parseLinesLoop]
  | cons l rest ih =>
    intro i acc
    have hstep : parseLinesLoop pl (l :: rest) i acc =
        if isBlankLine l then parseLinesLoop pl rest (i + 1) acc
        else parseLinesLoop pl rest (i + 1)
          (if (pl (pyStrip l) i).is_malformed then
            (acc.1 ++ [pl (pyStrip l) i], acc.2.1, acc.2.2 + 1)
           else (acc.1 ++ [pl (pyStrip l) i], acc.2.1 + 1, acc.2.2)) := by
      rw [parseLinesLoop]
    rw [hstep]
    by_cases h : isBlankLine l
    · rw [if_pos h]
      exact ih (i + 1) acc
    · rw [if_neg h]
      by_cases hm : (pl (pyStrip l) i).is_malformed
      · rw [if_pos hm]
        have hx := ih (i + 1)
          (acc.1 ++ [pl (pyStrip l) i], acc.2.1, acc.2.2 + 1)
        simp only [List.length_append, List.length_singleton] at hx
        omega
      · rw [if_neg hm]
        have hx := ih (i + 1)
          (acc.1 ++ [pl (pyStrip l) i], acc.2.1 + 1, acc.2.2)
        simp only [List.length_append, List.length_singleton] at hx
        omega

theorem systemdParseLoop_spec (pje : List String → ParsedLogEntry) :
    ∀ (groups : List (List String)) (acc : List ParsedLogEntry × Nat × Nat),
      (systemdParseLoop pje groups acc).1.length =
        acc.1.length + (groups.filter (fun g => !decide (g = []))).length ∧
      (systemdParseLoop pje groups acc).1.length + acc.2.1 + acc.2.2 =
        acc.1.length + (systemdParseLoop pje groups acc).2.1 +
          (systemdParseLoop pje groups acc).2.2 := by
  intro groups
  induction groups with
  | nil => intro acc; simp [systemdParseLoop]
  | cons g rest ih =>
    intro acc
    have hstep : systemdParseLoop pje (g :: rest) acc =
        if g = [] then systemdParseLoop pje rest acc
        else systemdParseLoop pje rest
          (if (pje g).is_malformed then (acc.1 ++ [pje g], acc.2.1, acc.2.2 + 1)
           else (acc.1 ++ [pje g], acc.2.1 + 1, acc.2.2)) := by
      rw [systemdParseLoop]
    rw [hstep]
    by_cases hg : g = []
    · rw [if_pos hg]
      obtain ⟨h1, h2⟩ := ih acc
      refine ⟨?_, h2⟩
      rw [h1]
      simp [List.filter_cons, hg]
    · rw [if_neg hg]
      by_cases hm : (pje g).is_malformed
      · rw [if_pos hm]
        obtain ⟨h1, h2⟩ := ih (acc.1 ++ [pje g], acc.2.1, acc.2.2 + 1)
        simp only [List.length_append, List.length_singleton] at h1 h2
        constructor
        · rw [h1]
          simp [List.filter_cons, hg]
          omega
        · omega
      · rw [if_neg hm]
        obtain ⟨h1, h2⟩ := ih (acc.1 ++ [pje g], acc.2.1 + 1, acc.2.2)
        simp only [List.length_append, List.length_singleton] at h1 h2
        constructor
        · rw [h1]
          simp [List.filter_cons, hg]
          omega
        · omega

/-! ## Claim C1 -/

/-- C1: for every non-empty input, `analyze_lines` keeps exactly the
detector results that meet their own detector's threshold (in detector
order, errors collected); if none passes it returns the UNKNOWN fallback
(confidence 0, empty schema, first 5 raw lines, errors and line count in
metadata); otherwise the winner is the maximum-confidence result, an exact
tie resolved in favour of the earlier-listed detector (every result left
of the winner is strictly below it, every result right of it is at most
it), and the returned value is that winner with field confidences refined
and the engine diagnostics merged into its metadata. -/
theorem C1_analyze_lines_winner (ds : List Detector) (lines : List String)
    (hne : lines ≠ []) :
    (runDetectors ds lines).1 = ds.filterMap (fun d =>
        match d.detect lines with
        | .ok r => if r.confidence ≥ d.threshold then some r else none
        | .error _ => none) ∧
    ((runDetectors ds lines).1 = [] →
      analyze_lines ds lines =
        { format_type := .unknown, confidence := 0, schema := [],
          sample_lines := lines.take 5,
          metadata :=
            [("message", .s "No format detected with sufficient confidence"),
             ("detection_errors", .ls (runDetectors ds lines).2),
             ("total_lines_analyzed", .n lines.length)] }) ∧
    (∀ r rs, (runDetectors ds lines).1 = r :: rs →
      ∃ l1 l2,
        r :: rs = l1 ++ pyMaxBy FormatDetectionResult.confidence r rs :: l2 ∧
        (∀ z ∈ l1, z.confidence <
          (pyMaxBy FormatDetectionResult.confidence r rs).confidence) ∧
        (∀ z ∈ l2, z.confidence ≤
          (pyMaxBy FormatDetectionResult.confidence r rs).confidence) ∧
        analyze_lines ds lines =
          { calculate_field_confidence
              (pyMaxBy FormatDetectionResult.confidence r rs) with
            metadata := dictUpdate
              (calculate_field_confidence
                (pyMaxBy FormatDetectionResult.confidence r rs)).metadata
              [("total_detectors_run", .n ds.length),
               ("detectors_above_threshold", .n (r :: rs).length),
               ("detection_errors", .ls (runDetectors ds lines).2),
               ("total_lines_analyzed", .n lines.length)] }) := by
  refine ⟨congrArg Prod.fst (runDetectors_eq ds lines), ?_, ?_⟩
  · intro h
    simp only [analyze_lines]
    rw [if_neg hne, h]
  · intro r rs h
    obtain ⟨l1, l2, hdec, hl1, hl2⟩ :=
      pyMaxBy_first_max FormatDetectionResult.confidence rs r
    refine ⟨l1, l2, hdec, hl1, hl2, ?_⟩
    simp only [analyze_lines]
    rw [if_neg hne, h]

/-- Witness for C1: two detectors (one raising, one reporting 0.9 above
its 0.5 threshold) on one line; the theorem pins the analysis down to the
refined high-confidence result with the merged diagnostics. -/
theorem C1_analyze_lines_winner_witness :
    (["log line"] : List String) ≠ [] ∧
    analyze_lines [demoDetectorBoom, demoDetectorHigh] ["log line"] =
      { format_type := .json, confidence := qnorm 9 10, schema := [],
        metadata :=
          [("total_detectors_run", .n 2),
           ("detectors_above_threshold", .n 1),
           ("detection_errors", .ls ["Detector boom failed: kaput"]),
           ("total_lines_analyzed", .n 1)] } := by
  refine ⟨by decide, ?_⟩
  obtain ⟨-, -, h3⟩ :=
    C1_analyze_lines_winner [demoDetectorBoom, demoDetectorHigh] ["log line"]
      (by decide)
  obtain ⟨-, -, -, -, -, heq⟩ := h3
    { format_type := .json, confidence := qnorm 9 10, schema := [] } []
    (by decide)
  rw [heq]
  decide

/-! ## Claim C2 -/

/-- C2: every entry reachable by the parsers' use of the data model (a
fresh `ParsedLogEntry` mutated only through field/timestamp assignment and
`add_parse_error`) satisfies `is_malformed ⇔ parse_errors ≠ []` and
`confidence = max(0.1, 1 − 0.2·len(parse_errors))`; at zero errors the
latter evaluates to 1, so a fresh entry has `is_malformed = false` and
confidence 1. -/
theorem C2_entry_invariant (e : ParsedLogEntry) (h : ProducedEntry e) :
    (e.is_malformed = true ↔ e.parse_errors ≠ []) ∧
    e.confidence = qmax (qnorm 1 10)
      ((1 : PyRat) - (e.parse_errors.length : PyRat) * qnorm 2 10) := by
  induction h with
  | fresh raw ln =>
    refine ⟨by simp, ?_⟩
    show (1 : PyRat) =
      qmax (qnorm 1 10) ((1 : PyRat) - (((0 : Nat) : PyRat)) * qnorm 2 10)
    decide
  | set_field e k v _ ih => exact ih
  | set_timestamp e t _ ih => exact ih
  | add_error e err _ _ =>
    refine ⟨by simp [ParsedLogEntry.add_parse_error], ?_⟩
    simp only [ParsedLogEntry.add_parse_error]

/-- Witness for C2: a freshly created entry after one recorded timestamp
error. -/
theorem C2_entry_invariant_witness :
    ProducedEntry
      (({ fields := [], raw_line := "zzz", line_number := some 1 } :
          ParsedLogEntry).add_parse_error "Failed to parse timestamp: zzz") ∧
    ((({ fields := [], raw_line := "zzz", line_number := some 1 } :
          ParsedLogEntry).add_parse_error
            "Failed to parse timestamp: zzz").is_malformed = true ↔
        (({ fields := [], raw_line := "zzz", line_number := some 1 } :
          ParsedLogEntry).add_parse_error
            "Failed to parse timestamp: zzz").parse_errors ≠ []) ∧
    (({ fields := [], raw_line := "zzz", line_number := some 1 } :
          ParsedLogEntry).add_parse_error
            "Failed to parse timestamp: zzz").confidence =
      qmax (qnorm 1 10) ((1 : PyRat) -
        ((({ fields := [], raw_line := "zzz", line_number := some 1 } :
          ParsedLogEntry).add_parse_error
            "Failed to parse timestamp: zzz").parse_errors.length : PyRat) *
          qnorm 2 10) := by
  have hp : ProducedEntry
      (({ fields := [], raw_line := "zzz", line_number := some 1 } :
          ParsedLogEntry).add_parse_error "Failed to parse timestamp: zzz") :=
    ProducedEntry.add_error _ _ (ProducedEntry.fresh "zzz" (some 1))
  exact ⟨hp, C2_entry_invariant _ hp⟩

/-! ## Claim C3 -/

/-- C3: `create_parser` raises exactly when the detection result's format
is UNKNOWN or unregistered, and — every format other than UNKNOWN being
registered in `parser_classes` — returns a parser instance for every other
member of the closed format enum. -/
theorem C3_create_parser_error_iff (r : FormatDetectionResult) :
    ((∃ e, createParser r = .error e) ↔
      (r.format_type = .unknown ∨ parserClasses r.format_type = none)) ∧
    (r.format_type ≠ .unknown → ∃ p, createParser r = .ok p) := by
  cases hft : r.format_type <;>
    simp [createParser, parserClasses, hft]

/-- Witness for C3: the CSV-format detection result of the field-confidence
fixture gets a parser without an error. -/
theorem C3_create_parser_error_iff_witness :
    stringFieldResult.format_type ≠ .unknown ∧
    ∃ p, createParser stringFieldResult = .ok p :=
  ⟨by decide, (C3_create_parser_error_iff stringFieldResult).2 (by decide)⟩

/-! ## Claim C4 -/

/-- C4 counterexample: a text holding two timestamps of equal confidence,
the later instant at start offset 0 and the earlier at offset 20; the
recognizer returns the offset-20 match first, violating the claimed
earliest-start-offset tie-break (the spans and their parses witness which
offset each instant comes from). -/
theorem C4_counterexample :
    detect_timestamp NOW_FIXED twoTsText =
      [(1577836800, "%Y-%m-%d %H:%M:%S", qnorm 3 4),
       (1704067200, "%Y-%m-%d %H:%M:%S", qnorm 3 4)] ∧
    findIter isoShape twoTsText.data 0 = [(0, 19), (20, 39)] ∧
    parseIsoChars ((twoTsText.data.drop 0).take 19) = some 1704067200 ∧
    parseIsoChars ((twoTsText.data.drop 20).take 19) = some 1577836800 := by
  decide

/-- C4 amended: the recognizer's result list is sorted by the key
`(-confidence, datetime)` — confidence descending, an exact confidence tie
broken by ascending parsed datetime (not by start offset). -/
theorem C4_sorted (now : Int) (text : String) :
    (detect_timestamp now text).Pairwise (fun a b =>
      b.2.2 < a.2.2 ∨ (PyRat.veq a.2.2 b.2.2 ∧ a.1 ≤ b.1)) :=
  List.sorted_insertionSort tsLe _

/-! ## Claim C5 -/

/-- C5: the source orders the temporal-plausibility scaling as
`if diff > 10y: conf *= 0.8 elif diff > 50y: conf *= 0.6`, so the 0.6
branch is unreachable; an instant about 56.8 years away (epoch 0 seen from
2026-10-12) receives only the 0.8 factor (total 0.606), while the claimed
independent scaling would yield 0.3756. -/
theorem C5_temporal_factor :
    intAbs ((0 : Int) - NOW_FIXED) > 86400 * 365 * 50 ∧
    calculate_final_confidence NOW_FIXED (qnorm 7 10)
      "1970-01-01 00:00:00".data isoBasicInfo 0 = qnorm 303 500 ∧
    claim_final_confidence NOW_FIXED (qnorm 7 10)
      "1970-01-01 00:00:00".data isoBasicInfo 0 = qnorm 939 2500 ∧
    qnorm 303 500 ≠ qnorm 939 2500 := by
  decide

/-! ## Claim C6 -/

/-- C6 counterexample: a string-typed field of frequency 1 over two sample
lines; the engine's post-pass still grants the 0.1 type bonus (confidence
3/5, the bonus applying to every `data_type ≠ "unknown"`), while the
claimed non-string-only bonus would yield 1/2. -/
theorem C6_counterexample :
    (calculate_field_confidence stringFieldResult).schema.map
        (fun kv => kv.2.confidence) = [qnorm 3 5] ∧
    claim_field_confidence stringFieldResult
      { name := "msg", data_type := "string", frequency := 1 } = qnorm 1 2 ∧
    qnorm 3 5 ≠ qnorm 1 2 := by
  decide

/-- C6 amended: for every detection result with a nonempty schema, the
post-pass sets each field's confidence to
`min(min(frequency/total, 1) + 0.2·is_timestamp
+ 0.1·(data_type ≠ "unknown"), 1)` — the type bonus keys on the type not
being "unknown", not on it not being a string. -/
theorem C6_field_confidence (result : FormatDetectionResult)
    (hs : result.schema ≠ []) :
    (calculate_field_confidence result).schema =
      result.schema.map (fun kv =>
        let conf := qmin (qmin (PyRat.div (kv.2.frequency : PyRat)
                (if result.sample_lines = [] then 1
                 else (result.sample_lines.length : PyRat))) 1
            + (if kv.2.is_timestamp then qnorm 2 10 else 0)
            + (if kv.2.data_type ≠ "unknown" then qnorm 1 10 else 0)) 1
        (kv.1, { kv.2 with confidence := conf })) := by
  unfold calculate_field_confidence
  rw [if_neg hs]

/-- Witness for C6: the post-pass on the string-typed one-field fixture. -/
theorem C6_field_confidence_witness :
    stringFieldResult.schema ≠ [] ∧
    (calculate_field_confidence stringFieldResult).schema =
      stringFieldResult.schema.map (fun kv =>
        let conf := qmin (qmin (PyRat.div (kv.2.frequency : PyRat)
                (if stringFieldResult.sample_lines = [] then 1
                 else (stringFieldResult.sample_lines.length : PyRat))) 1
            + (if kv.2.is_timestamp then qnorm 2 10 else 0)
            + (if kv.2.data_type ≠ "unknown" then qnorm 1 10 else 0)) 1
        (kv.1, { kv.2 with confidence := conf })) :=
  ⟨by decide, C6_field_confidence stringFieldResult (by decide)⟩

/-! ## Claim C7 -/

/-- C7 counterexample: parsing the 4 CSV scenario lines with the detection
result yields 4 entries, not 3 — `parse_lines` does not exclude the header
row, which becomes a first entry whose `age` field stays the uncoerced
string "age". -/
theorem C7_counterexample :
    csvScenarioParse.entries.length = 4 ∧
    csvScenarioParse.entries.map (fun e => dictLookup e.fields "age") =
      [some (.s "age"), some (.i 30), some (.i 25), some (.i 35)] := by
  decide

/-- C7 amended: on the scenario lines detection selects CSV with
confidence 19/20 > 0.6, schema fields `name`, `age`, `city` and metadata
delimiter ","; parsing the same 4 lines yields 4 entries — the header row
included as a first entry with `age` kept as a raw string — and each of
the 3 data entries carries `name` as a string and `age` coerced to an
integer. -/
theorem C7_csv_scenario :
    csvScenarioDetection.format_type = .csv ∧
    csvScenarioDetection.confidence = qnorm 19 20 ∧
    qnorm 3 5 < csvScenarioDetection.confidence ∧
    csvScenarioDetection.schema.map Prod.fst = ["name", "age", "city"] ∧
    dictLookup csvScenarioDetection.metadata "delimiter" = some (.s ",") ∧
    csvScenarioParse.entries.map (fun e =>
        (dictLookup e.fields "name", dictLookup e.fields "age")) =
      [(some (.s "name"), some (.s "age")),
       (some (.s "Alice"), some (.i 30)),
       (some (.s "Bob"), some (.i 25)),
       (some (.s "Charlie"), some (.i 35))] := by
  decide

/-! ## Claim C8 -/

/-- C8 counterexample: the entry parsed from the RFC3164 scenario line
carries `priority = 34` but neither `facility` nor `severity` —
`_extract_facility_severity` stores them only when the schema declares
those fields, and the detection-produced schema does not. -/
theorem C8_counterexample :
    syslogScenarioParse.entries.map (fun e =>
        (dictLookup e.fields "facility", dictLookup e.fields "severity",
         dictLookup e.fields "priority")) =
      [(none, none, some (.i 34))] := by
  decide

/-- C8 amended: detection on the scenario line is SYSLOG with
`rfc3164_matches = 1` and a schema containing `hostname` and `message`
(but not `facility`/`severity`); the facility/severity derivation
`facility = priority >> 3 = 4`, `severity = priority & 7 = 2` runs only
against a schema that declares the fields, so the parsed entry keeps
`priority = 34` and gains no facility/severity fields. -/
theorem C8_syslog_scenario :
    syslogScenarioDetection.format_type = .syslog ∧
    dictLookup syslogScenarioDetection.metadata "rfc3164_matches" =
      some (.n 1) ∧
    (dictLookup syslogScenarioDetection.schema "hostname").isSome = true ∧
    (dictLookup syslogScenarioDetection.schema "message").isSome = true ∧
    dictLookup syslogScenarioDetection.schema "facility" = none ∧
    dictLookup syslogScenarioDetection.schema "severity" = none ∧
    (extract_facility_severity
        [("facility", { name := "facility", data_type := "integer" }),
         ("severity", { name := "severity", data_type := "integer" })] 34
        { fields := [], raw_line := syslogScenarioLine }).fields =
      [("facility", .i 4), ("severity", .i 2)] ∧
    syslogScenarioParse.entries.map (fun e => dictLookup e.fields "priority") =
      [some (.i 34)] := by
  decide

/-! ## Claim C9 -/

/-- C9: every detector's `detect` returns a result without raising, for
every input and every behaviour of its per-line body — the per-line
oracles may fail on any line (modelling a raised exception caught by the
in-loop handler) and processing continues; detectors whose loop body is
raise-free string arithmetic are embedded totally.  The `app_log_detect`
conjunct covers the base, Python and basic application-log detectors at
once via their shared loop, so the eleven conjuncts cover all 12
registered detectors. -/
theorem C9_detectors_never_raise (now : Int) (lines : List String)
    (jsonLoads : String → Except String JsonData)
    (sniff : String → Except String DialectInfo)
    (findalls : List (String → List (String × String)))
    (slStep : String → SyslogDetectSt →
      Except (String × SyslogDetectSt) SyslogDetectSt)
    (apTry : String → WebSt →
      Except (String × WebSt) (Option ApacheKind × WebSt))
    (ngTry : String → WebSt → Except (String × WebSt) (Option Bool × WebSt))
    (gwTry : String → WebSt → Except (String × WebSt) (Bool × WebSt))
    (alTry : String → List (String × FieldInfo) →
      Except (String × List (String × FieldInfo))
        (Bool × List (String × FieldInfo))) :
    (json_detect jsonLoads now lines).isOk = true ∧
    (csv_detect sniff now lines).isOk = true ∧
    (ltsv_detect now lines).isOk = true ∧
    (key_value_detect findalls now lines).isOk = true ∧
    (syslog_detect slStep lines).isOk = true ∧
    (systemd_detect now lines).isOk = true ∧
    (apache_detect apTry lines).isOk = true ∧
    (nginx_detect ngTry lines).isOk = true ∧
    (generic_web_detect gwTry lines).isOk = true ∧
    (∀ fmt : LogFormat, (app_log_detect fmt alTry lines).isOk = true) ∧
    (custom_delimited_detect now lines).isOk = true := by
  refine ⟨?_, ?_, ?_, ?_, ?_, ?_, ?_, ?_, ?_, ?_, ?_⟩
  · simp only [json_detect]
    repeat' split
    all_goals rfl
  · simp only [csv_detect]
    repeat' split
    all_goals rfl
  · simp only [ltsv_detect]
    repeat' split
    all_goals rfl
  · simp only [key_value_detect]
    repeat' split
    all_goals rfl
  · simp only [syslog_detect]
    repeat' split
    all_goals rfl
  · simp only [systemd_detect]
    rfl
  · simp only [apache_detect]
    repeat' split
    all_goals rfl
  · simp only [nginx_detect]
    repeat' split
    all_goals rfl
  · simp only [generic_web_detect]
    repeat' split
    all_goals rfl
  · intro fmt
    simp only [app_log_detect]
    rfl
  · simp only [custom_delimited_detect]
    repeat' split
    all_goals rfl

/-! ## Claim C10 -/

/-- C10: the `ParseResult` of the line-based `parse_lines` satisfies
`successfully_parsed + malformed_lines = len(entries)`; blank lines
produce no entry (the entries are exactly the per-line parses of the
non-blank lines in order); `total_lines` counts the non-blank input
lines; each entry's `line_number` is the 1-based position of its line in
the original input (blank lines still advance the counter, for any
`parse_line` that records the index it is handed); and the systemd
journal parser's grouped `parse_lines` satisfies the same counting
invariant. -/
theorem C10_parse_lines_invariants (schema : List (String × FieldInfo))
    (pl : String → Nat → ParsedLogEntry)
    (pje : List String → ParsedLogEntry) (lines : List String)
    (hln : ∀ l n, (pl l n).line_number = some n) :
    (parse_lines schema pl lines).successfully_parsed +
        (parse_lines schema pl lines).malformed_lines =
      (parse_lines schema pl lines).entries.length ∧
    (parse_lines schema pl lines).total_lines =
      (lines.filter (fun l => !(isBlankLine l))).length ∧
    (parse_lines schema pl lines).entries =
      ((listEnumFrom 1 lines).filter (fun p => !(isBlankLine p.2))).map
        (fun p => pl (pyStrip p.2) p.1) ∧
    (parse_lines schema pl lines).entries.map ParsedLogEntry.line_number =
      ((listEnumFrom 1 lines).filter (fun p => !(isBlankLine p.2))).map
        (fun p => some p.1) ∧
    (systemd_parse_lines schema pje lines).successfully_parsed +
        (systemd_parse_lines schema pje lines).malformed_lines =
      (systemd_parse_lines schema pje lines).entries.length := by
  have he := parseLinesLoop_entries pl lines 1 ([], 0, 0)
  simp only [List.nil_append] at he
  have hc := parseLinesLoop_counts pl lines 1 ([], 0, 0)
  simp only [List.length_nil] at hc
  refine ⟨?_, rfl, he, ?_, ?_⟩
  · show (parseLinesLoop pl lines 1 ([], 0, 0)).2.1 +
        (parseLinesLoop pl lines 1 ([], 0, 0)).2.2 =
      (parseLinesLoop pl lines 1 ([], 0, 0)).1.length
    omega
  · show (parseLinesLoop pl lines 1 ([], 0, 0)).1.map
        ParsedLogEntry.line_number =
      ((listEnumFrom 1 lines).filter (fun p => !(isBlankLine p.2))).map
        (fun p => some p.1)
    rw [he, List.map_map]
    exact List.map_congr_left (fun p _ => hln (pyStrip p.2) p.1)
  · obtain ⟨-, h2⟩ := systemdParseLoop_spec pje
      (group_lines_into_entries lines) ([], 0, 0)
    simp only [List.length_nil] at h2
    show (systemdParseLoop pje (group_lines_into_entries lines)
          ([], 0, 0)).2.1 +
        (systemdParseLoop pje (group_lines_into_entries lines)
          ([], 0, 0)).2.2 =
      (systemdParseLoop pje (group_lines_into_entries lines)
          ([], 0, 0)).1.length
    omega

/-- Witness for C10: the raw-recording parser on `["a", "", "b"]` — the
blank line produces no entry, the two entries carry line numbers 1 and 3,
and the counts add up. -/
theorem C10_parse_lines_invariants_witness :
    (parse_lines [] rawEntryParseLine ["a", "", "b"]).entries.map
        ParsedLogEntry.line_number = [some 1, some 3] ∧
    (parse_lines [] rawEntryParseLine ["a", "", "b"]).successfully_parsed +
        (parse_lines [] rawEntryParseLine ["a", "", "b"]).malformed_lines =
      (parse_lines [] rawEntryParseLine ["a", "", "b"]).entries.length ∧
    (systemd_parse_lines [] rawJournalEntry ["a", "", "b"]).entries.length =
      (systemd_parse_lines [] rawJournalEntry
          ["a", "", "b"]).successfully_parsed +
        (systemd_parse_lines [] rawJournalEntry ["a", "", "b"]).malformed_lines := by
  obtain ⟨h1, -, -, h4, h5⟩ :=
    C10_parse_lines_invariants [] rawEntryParseLine rawJournalEntry
      ["a", "", "b"] (fun _ _ => rfl)
  refine ⟨?_, h1, h5.symm⟩
  rw [h4]
  decide
